import Mathlib

set_option maxHeartbeats 1000000

/-!
Verification development for the moon-lander simulation engine
(physics.ts, entities.ts and the game-loop module).

The TypeScript source is shallowly embedded: IEEE doubles become exact
rationals, the ambient Math.random stream and the transcendental Math
functions (sin, cos, hypot, pow, PI) become an explicit oracle threaded
through the definitions, the WeakMap-based peak-vertical-speed side table
becomes an explicit field of the runtime record, and JS 32-bit integer
operations become natural-number arithmetic modulo 2 to the 32.
Number.isFinite guards in the source are vacuously true in exact rational
arithmetic and are noted with comments where they are dropped.
-/

namespace MoonLander

/-- JS-style clamp helper: clamp(v, lo, hi) as used by the spec formulas. -/
def clamp (v lo hi : ℚ) : ℚ := min hi (max lo v)

/-- Math.round semantics on exact rationals: round half toward positive infinity. -/
def jsRound (q : ℚ) : ℤ := ⌊q + 1/2⌋

/-- Math.sign semantics (sign of a rational, 0 at 0). -/
def jsSign (q : ℚ) : ℚ := if q < 0 then -1 else if 0 < q then 1 else 0

/-- JS array indexing with a possibly out-of-range integer index: out-of-range
reads give undefined, modelled as Option. -/
def jsIndex (l : List α) (i : ℤ) : Option α :=
  if i < 0 then none else l.get? i.toNat

/-- 2 to the 32, the modulus of JS unsigned 32-bit arithmetic. -/
def UINT32 : ℕ := 4294967296

/-- One step of the mulberry32 pseudo-random generator (entities.ts).
The JS closure keeps a mutable seed; here the seed is threaded explicitly.
All JS int32 coercions are modelled as residues modulo 2 to the 32, which
agrees with the source because addition, Math.imul, xor, or and unsigned
shift right only depend on the residue. Returns (next seed, random value
in the half-open unit interval). -/
def mulberry32Step (seed : ℕ) : ℕ × ℚ :=
  let a := (seed + 0x6d2b79f5) % UINT32
  let t0 := Nat.xor a (a / 2 ^ 15)
  let t1 := (t0 * Nat.lor 1 a) % UINT32
  let t2 := Nat.xor ((t1 + Nat.xor t1 (t1 / 2 ^ 7) * Nat.lor 61 t1) % UINT32) t1
  let out := Nat.xor t2 (t2 / 2 ^ 14)
  (a, (out : ℚ) / (UINT32 : ℚ))

/-! ## Data model (entities.ts) -/

inductive GameStatus
  | title | playing | landed | crashed | gameOver | enterName | leaderboard
  deriving DecidableEq, Repr

structure TerrainPoint where
  x : ℚ
  y : ℚ
  deriving DecidableEq, Repr

structure LandingPad where
  x1 : ℚ
  x2 : ℚ
  y : ℚ
  cx : ℚ
  deriving DecidableEq, Repr

structure Star where
  x : ℚ
  y : ℚ
  size : ℚ
  brightness : ℚ
  deriving DecidableEq, Repr

/-- The kind tag of a particle; the source only ever stores the strings
flame and dust (absence of the field is Option.none). -/
inductive ParticleKind
  | flame | dust
  deriving DecidableEq, Repr

structure Particle where
  x : ℚ
  y : ℚ
  vx : ℚ
  vy : ℚ
  life : ℚ
  decay : ℚ
  size : ℚ
  kind : Option ParticleKind := none
  color : Option String := none
  gravityScale : Option ℚ := none
  drag : Option ℚ := none
  deriving DecidableEq, Repr

structure Camera where
  x : ℚ
  y : ℚ
  zoom : ℚ
  targetZoom : ℚ
  deriving DecidableEq, Repr

structure Lander where
  x : ℚ
  y : ℚ
  vx : ℚ
  vy : ℚ
  angle : ℚ
  thrusting : Bool
  outOfBounds : Bool
  fuel : ℚ
  maxFuel : ℚ
  deriving DecidableEq, Repr

/-- The pending landing award record. The fuelMultiplier field is declared
in the entities.ts interface; the checkLanding code in physics.ts builds the
record without it, which at JS runtime leaves the property undefined, so it
is modelled as an Option. -/
structure LandingScoreAnimation where
  baseBonus : ℤ
  velocityMultiplier : ℚ
  fuelMultiplier : Option ℚ
  finalAward : ℤ
  displayedAward : ℤ
  elapsedMs : ℚ
  durationMs : ℚ
  committed : Bool
  deriving DecidableEq, Repr

/-- The slice of the input state read by the physics update. -/
structure InputState where
  arrowLeft : Bool := false
  keyA : Bool := false
  arrowRight : Bool := false
  keyD : Bool := false
  arrowUp : Bool := false
  keyW : Bool := false
  touchThrusting : Bool := false
  tiltAvailable : Bool := false
  tiltRaw : ℚ := 0
  deriving DecidableEq, Repr

/-- The slice of the leaderboard state mutated by the modelled code paths. -/
structure LeaderboardState where
  playerInitials : String := "AAA"
  initialsIndex : ℕ := 0
  nameSubmitted : Bool := false
  nameSubmitting : Bool := false
  deriving DecidableEq, Repr

structure GameState where
  status : GameStatus
  level : ℕ
  score : ℤ
  lives : ℕ
  highScore : ℤ
  lander : Option Lander
  terrain : List TerrainPoint
  landingPads : List LandingPad
  stars : List Star
  particles : List Particle
  attemptPeakSpeed : ℚ
  landingScoreAnimation : Option LandingScoreAnimation
  camera : Camera
  deriving DecidableEq, Repr

/-- The game runtime. peakAbsVy models the WeakMap side table
attemptPeakAbsVerticalSpeed of physics.ts, and randCursor models the
position in the ambient Math.random stream. -/
structure Runtime where
  canvasWidth : ℚ
  canvasHeight : ℚ
  input : InputState
  leaderboard : LeaderboardState
  game : GameState
  peakAbsVy : ℚ
  randCursor : ℕ
  deriving DecidableEq, Repr

/-- Oracle for the transcendental Math functions and the Math.random
stream. Each concrete IEEE double returned by those functions is a
rational, so any run of the source program corresponds to some oracle. -/
structure MathOracle where
  sin : ℚ → ℚ
  cos : ℚ → ℚ
  hypot : ℚ → ℚ → ℚ
  pow : ℚ → ℚ → ℚ
  pi : ℚ
  rand : ℕ → ℚ

/-! ## Physics constants (entities.ts) -/

def GRAVITY : ℚ := 6/1000
def THRUST : ℚ := 25/1000
def ROTATION_SPEED : ℚ := 15/1000
def MAX_SAFE_VY : ℚ := 1
def MAX_SAFE_VX : ℚ := 6/10
def MAX_SAFE_ANGLE : ℚ := 35/100
def LANDER_SIZE : ℚ := 14
def STARTING_LIVES : ℕ := 3
def STARTING_FUEL : ℚ := 100
def FUEL_CONSUMPTION_RATE : ℚ := 2/10

def EXHAUST_SAMPLE_DX : ℚ := 6
def EXHAUST_BOUNCE_DAMPING : ℚ := 62/100
def MAX_SUSTAINED_EXHAUST_PARTICLES : ℕ := 320
def MAX_EXHAUST_SPAWN_PER_FRAME : ℕ := 8

/-! ## entities.ts functions -/

/-- loadHighScore: reads the stored value from localStorage (modelled as an
Option), returning 0 when absent or negative. The parse-failure and
non-finite branches also return 0 and are subsumed by the none case. -/
def loadHighScore (stored : Option ℤ) : ℤ :=
  match stored with
  | none => 0
  | some v => if v < 0 then 0 else v

/-- syncHighScore: raise highScore to score when score exceeds it
(the saveHighScore write to localStorage is an external effect). -/
def syncHighScore (rt : Runtime) : Runtime :=
  if rt.game.highScore < rt.game.score then
    { rt with game := { rt.game with highScore := rt.game.score } }
  else rt

/-- A landing pad under construction during terrain generation: segment
start offset, width in segments, and the flat height once fixed. -/
structure PadGen where
  start : ℤ
  width : ℕ
  y : Option ℚ
  deriving DecidableEq, Repr

/-- The do-while retry loop of pad placement in generateTerrain: draw a
random segment offset; repeat while attempts stay below 100 and the drawn
offset overlaps an already used segment (minimum separation sep). The fuel
argument counts the remaining attempts, starting at 100. -/
def placePadLoop (used : List ℤ) (range : ℤ) (sep : ℤ) : ℕ → ℕ → ℤ × ℕ
  | 0, s => (5, s)
  | fuel + 1, s =>
    let next := mulberry32Step s
    let pos := ⌊next.2 * (range : ℚ)⌋ + 5
    if (used.any fun u => decide (|u - pos| < sep)) ∧ 0 < fuel then
      placePadLoop used range sep fuel next.1
    else
      (pos, next.1)

/-- The pad-placement phase of generateTerrain: place padCount pads,
remembering used segments, threading the rng seed. -/
def placePads (range : ℤ) (padWidth : ℕ) (extraSegs : ℕ) :
    ℕ → List ℤ → List PadGen → ℕ → List PadGen × ℕ
  | 0, _, pads, s => (pads, s)
  | n + 1, used, pads, s =>
    let drawn := placePadLoop used range ((padWidth : ℤ) + 5) 100 s
    let pos := drawn.1
    let newPad : PadGen := { start := pos + (extraSegs : ℤ), width := padWidth, y := none }
    let newUsed := used ++ (List.range padWidth).map (fun i => pos + (i : ℤ))
    placePads range padWidth extraSegs n newUsed (pads ++ [newPad]) drawn.2

/-- Index of the first pad whose (inclusive) segment range contains i,
mirroring pads.find in the height walk. -/
def findPadIdx (i : ℤ) : List PadGen → Option ℕ
  | [] => none
  | pad :: rest =>
    if pad.start ≤ i ∧ i ≤ pad.start + (pad.width : ℤ) then some 0
    else (findPadIdx i rest).map (· + 1)

/-- Set the y field of the pad at the given index. -/
def setPadY (pads : List PadGen) (idx : ℕ) (y : ℚ) : List PadGen :=
  pads.set idx { (pads.getD idx { start := 0, width := 0, y := none }) with y := some y }

/-- One iteration of the height-profile walk of generateTerrain, at segment
index i. State: (current height, rng seed, pads, points so far). -/
def terrainWalkStep (h : ℚ) (segWidth : ℚ) (extraSegs : ℕ) (roughness : ℚ)
    (st : ℚ × ℕ × List PadGen × List TerrainPoint) (i : ℕ) :
    ℚ × ℕ × List PadGen × List TerrainPoint :=
  let currentHeight := st.1
  let seed := st.2.1
  let pads := st.2.2.1
  let points := st.2.2.2
  let x := ((i : ℤ) - (extraSegs : ℤ)) * segWidth
  match findPadIdx (i : ℤ) pads with
  | some idx =>
    let pad := pads.getD idx { start := 0, width := 0, y := none }
    let newY := if (i : ℤ) = pad.start then some currentHeight else pad.y
    let newPads := if (i : ℤ) = pad.start then setPadY pads idx currentHeight else pads
    (currentHeight, seed, newPads, points ++ [{ x := x, y := newY.getD currentHeight }])
  | none =>
    let next := mulberry32Step seed
    let moved := currentHeight + (next.2 - 1/2) * 40 * roughness
    let clamped := max (h * (1/2)) (min (h * (9/10)) moved)
    (clamped, next.1, pads, points ++ [{ x := x, y := clamped }])

structure TerrainGenResult where
  points : List TerrainPoint
  landingPads : List LandingPad
  deriving DecidableEq, Repr

/-- generateTerrain with an explicit initial rng seed, mirroring the body
of generateTerrain in entities.ts after the rng is created. -/
def generateTerrainWithSeed (w h : ℚ) (lvl : ℕ) (seed : ℕ) : TerrainGenResult :=
  let segCount := 60 + 10 * lvl
  let segWidth := w / (segCount : ℚ)
  let extraSegs := 3 * segCount
  let totalSegs := segCount + extraSegs * 2
  let padCount := max 1 (3 - lvl / 3)
  let padWidth := max 3 (6 - lvl / 2)
  let placed := placePads ((segCount : ℤ) - (padWidth : ℤ) - 10) padWidth extraSegs
    padCount [] [] seed
  let baseHeight := h * (75/100)
  let roughness := 3/10 + (lvl : ℚ) * (5/100)
  let heightDraw := mulberry32Step placed.2
  let startHeight := baseHeight + (heightDraw.2 - 1/2) * h * (1/10)
  let walked := (List.range (totalSegs + 1)).foldl
    (terrainWalkStep h segWidth extraSegs roughness)
    (startHeight, heightDraw.1, placed.1, [])
  let finalPads := walked.2.2.1
  let landingPads := finalPads.map fun pad =>
    { x1 := ((pad.start : ℚ) - (extraSegs : ℚ)) * segWidth
      x2 := ((pad.start : ℚ) + (pad.width : ℚ) - (extraSegs : ℚ)) * segWidth
      y := pad.y.getD baseHeight
      cx := ((pad.start : ℚ) + (pad.width : ℚ) / 2 - (extraSegs : ℚ)) * segWidth }
  { points := walked.2.2.2, landingPads := landingPads }

/-- generateTerrain (entities.ts): deterministic terrain for a canvas of
the given width and height and an integer level, seeded with lvl * 7919. -/
def generateTerrain (w h : ℚ) (lvl : ℕ) : TerrainGenResult :=
  generateTerrainWithSeed w h lvl (lvl * 7919)

/-- generateStars: 200 stars drawn from the ambient Math.random stream;
returns the stars and the advanced stream cursor. -/
def generateStarsLoop (o : MathOracle) (w h : ℚ) : ℕ → List Star → ℕ → List Star × ℕ
  | 0, stars, cursor => (stars, cursor)
  | n + 1, stars, cursor =>
    let star : Star :=
      { x := o.rand cursor * w
        y := o.rand (cursor + 1) * h * (7/10)
        size := o.rand (cursor + 2) * (3/2) + 1/2
        brightness := o.rand (cursor + 3) * (1/2) + 1/2 }
    generateStarsLoop o w h n (stars ++ [star]) (cursor + 4)

def generateStars (o : MathOracle) (w h : ℚ) (cursor : ℕ) : List Star × ℕ :=
  generateStarsLoop o w h 200 [] cursor

/-- createRuntime (entities.ts): the initial runtime. The stored high
score read from localStorage is passed in as an Option. -/
def createRuntime (w h : ℚ) (storedHighScore : Option ℤ) : Runtime :=
  { canvasWidth := w
    canvasHeight := h
    input := {}
    leaderboard := {}
    game :=
      { status := GameStatus.title
        level := 1
        score := 0
        lives := STARTING_LIVES
        highScore := loadHighScore storedHighScore
        lander := none
        terrain := []
        landingPads := []
        stars := []
        particles := []
        attemptPeakSpeed := 0
        landingScoreAnimation := none
        camera := { x := 0, y := 0, zoom := 1, targetZoom := 1 } }
    peakAbsVy := 0
    randCursor := 0 }

/-! ## physics.ts: particles, terrain lookup, collision geometry -/

/-- isSustainedExhaustParticleKind (physics.ts): kind is flame or dust. -/
def isSustainedExhaustParticleKind (kind : Option ParticleKind) : Bool :=
  kind = some ParticleKind.flame || kind = some ParticleKind.dust

/-- countSustainedExhaustParticles (physics.ts). -/
def countSustainedExhaustParticles (rt : Runtime) : ℕ :=
  rt.game.particles.countP fun p => isSustainedExhaustParticleKind p.kind

structure TerrainLocalFrame where
  tangentX : ℚ
  tangentY : ℚ
  normalX : ℚ
  normalY : ℚ
  deriving DecidableEq, Repr

def DEFAULT_TERRAIN_FRAME : TerrainLocalFrame :=
  { tangentX := 1, tangentY := 0, normalX := 0, normalY := -1 }

/-- Append one particle, mirroring particles.push. -/
def pushParticle (rt : Runtime) (p : Particle) : Runtime :=
  { rt with game := { rt.game with particles := rt.game.particles ++ [p] } }

/-- Draw the next value of the ambient Math.random stream. -/
def nextRand (o : MathOracle) (rt : Runtime) : ℚ × Runtime :=
  (o.rand rt.randCursor, { rt with randCursor := rt.randCursor + 1 })

/-- Inner loop of spawnThrustParticles: up to flameCount iterations while
spawn budget remains; each iteration draws four randoms (spread, speed,
decay, size) and pushes one flame particle. -/
def spawnThrustLoop (o : MathOracle) (x y angle : ℚ) : ℕ → ℕ → Runtime → Runtime
  | 0, _, rt => rt
  | _ + 1, 0, rt => rt
  | i + 1, budget + 1, rt =>
    let d1 := nextRand o rt
    let d2 := nextRand o d1.2
    let d3 := nextRand o d2.2
    let d4 := nextRand o d3.2
    let spread := (d1.1 - 1/2) * (1/2)
    let speed := 2 + d2.1 * 2
    let p : Particle :=
      { x := x, y := y
        vx := -o.sin (angle + spread) * speed
        vy := o.cos (angle + spread) * speed
        kind := some ParticleKind.flame
        life := 1
        decay := 2/100 + d3.1 * (3/100)
        size := d4.1 * 3 + 1 }
    spawnThrustLoop o x y angle i budget (pushParticle d4.2 p)

/-- spawnThrustParticles (physics.ts): spawn budget is the per-frame cap
8 further limited by the remaining global sustained-exhaust capacity; at
most flameCount = 2 flames are spawned per call. Natural-number
subtraction models Math.max(0, cap - count). -/
def spawnThrustParticles (o : MathOracle) (rt : Runtime) (x y angle : ℚ) : Runtime :=
  let sustainedCount := countSustainedExhaustParticles rt
  let remainingCap := MAX_SUSTAINED_EXHAUST_PARTICLES - sustainedCount
  let spawnBudget := min MAX_EXHAUST_SPAWN_PER_FRAME remainingCap
  if spawnBudget = 0 then rt
  else spawnThrustLoop o x y angle 2 spawnBudget rt

/-- Explosion color palette lookup with JS out-of-range semantics. -/
def explosionColor (r : ℚ) : Option String :=
  jsIndex ["#ff4400", "#ff8800", "#ffcc00", "#ffffff"] ⌊r * 4⌋

/-- spawnExplosion (physics.ts): 60 untagged particles; each iteration
draws five randoms (direction, speed, decay, size, color index). -/
def spawnExplosionLoop (o : MathOracle) (x y : ℚ) : ℕ → Runtime → Runtime
  | 0, rt => rt
  | n + 1, rt =>
    let d1 := nextRand o rt
    let d2 := nextRand o d1.2
    let d3 := nextRand o d2.2
    let d4 := nextRand o d3.2
    let d5 := nextRand o d4.2
    let a := d1.1 * o.pi * 2
    let speed := d2.1 * 4 + 1
    let p : Particle :=
      { x := x, y := y
        vx := o.cos a * speed
        vy := o.sin a * speed
        life := 1
        decay := 1/100 + d3.1 * (2/100)
        size := d4.1 * 4 + 1
        color := explosionColor d5.1 }
    spawnExplosionLoop o x y n (pushParticle d5.2 p)

def spawnExplosion (o : MathOracle) (rt : Runtime) (x y : ℚ) : Runtime :=
  spawnExplosionLoop o x y 60 rt

/-- spawnLandingParticles (physics.ts): 30 untagged green particles; each
iteration draws three randoms (direction, speed, size). -/
def spawnLandingLoop (o : MathOracle) (x y : ℚ) : ℕ → Runtime → Runtime
  | 0, rt => rt
  | n + 1, rt =>
    let d1 := nextRand o rt
    let d2 := nextRand o d1.2
    let d3 := nextRand o d2.2
    let a := -o.pi * d1.1
    let speed := d2.1 * 2 + 1/2
    let p : Particle :=
      { x := x, y := y
        vx := o.cos a * speed
        vy := o.sin a * speed
        life := 1
        decay := 15/1000
        size := d3.1 * 2 + 1
        color := some "#44ff88" }
    spawnLandingLoop o x y n (pushParticle d3.2 p)

def spawnLandingParticles (o : MathOracle) (rt : Runtime) (x y : ℚ) : Runtime :=
  spawnLandingLoop o x y 30 rt

/-- The interior scan of getTerrainYAtX: return the linear interpolation
over the first adjacent terrain pair whose x-range contains x. -/
def findInterp (x : ℚ) : List TerrainPoint → Option ℚ
  | p :: q :: rest =>
    if p.x ≤ x ∧ x ≤ q.x then
      some (p.y + (x - p.x) / (q.x - p.x) * (q.y - p.y))
    else findInterp x (q :: rest)
  | _ => none

/-- The off-range taper of getTerrainYAtX: extrapolate the edge slope and
add a bounded quadratic taper, capped at 1.1 times the canvas height. -/
def terrainEdgeY (w h : ℚ) (first second last penult : TerrainPoint) (x : ℚ) : ℚ :=
  let maxY := h * (11/10)
  let taperScale := w * (75/100)
  if x < first.x then
    let distance := first.x - x
    let edgeSlope := (second.y - first.y) / max 1 (second.x - first.x)
    let linearY := first.y - edgeSlope * distance
    let taper := (distance / taperScale) * (distance / taperScale) * (h * (35/100))
    min maxY (linearY + taper)
  else
    let distance := x - last.x
    let edgeSlope := (last.y - penult.y) / max 1 (last.x - penult.x)
    let linearY := last.y + edgeSlope * distance
    let taper := (distance / taperScale) * (distance / taperScale) * (h * (35/100))
    min maxY (linearY + taper)

/-- getTerrainYAtX (physics.ts): canvas height on empty terrain, the single
point height on one-point terrain, linear interpolation between bracketing
points, and the tapered extrapolation outside the terrain x-range. -/
def getTerrainYAtX (rt : Runtime) (x : ℚ) : ℚ :=
  match rt.game.terrain with
  | [] => rt.canvasHeight
  | [p] => p.y
  | p0 :: p1 :: rest =>
    match findInterp x (p0 :: p1 :: rest) with
    | some y => y
    | none =>
      let last := (p1 :: rest).getLastD p1
      let penult := ((p0 :: p1 :: rest).dropLast).getLastD p0
      terrainEdgeY rt.canvasWidth rt.canvasHeight p0 p1 last penult x

/-- getTerrainLocalFrameAtX (physics.ts). The Number.isFinite guards of
the source are vacuous in exact arithmetic; the zero-length-tangent guard
(epsilon 1e-9) is kept. -/
def getTerrainLocalFrameAtX (o : MathOracle) (rt : Runtime) (x : ℚ) : TerrainLocalFrame :=
  let sampleDx := EXHAUST_SAMPLE_DX
  let leftY := getTerrainYAtX rt (x - sampleDx)
  let rightY := getTerrainYAtX rt (x + sampleDx)
  let rawTangentX := sampleDx * 2
  let rawTangentY := rightY - leftY
  let tangentLength := o.hypot rawTangentX rawTangentY
  if tangentLength ≤ 1 / 10 ^ 9 then DEFAULT_TERRAIN_FRAME
  else
    let tangentX := rawTangentX / tangentLength
    let tangentY := rawTangentY / tangentLength
    let normalX := -tangentY
    let normalY := tangentX
    if 0 < normalY then
      { tangentX := tangentX, tangentY := tangentY, normalX := -normalX, normalY := -normalY }
    else
      { tangentX := tangentX, tangentY := tangentY, normalX := normalX, normalY := normalY }

structure Point where
  x : ℚ
  y : ℚ
  deriving DecidableEq, Repr

def FOOT_HALF_WIDTH : ℚ := LANDER_SIZE * (6/10)

/-- getLanderFootprint (physics.ts): the two foot points obtained by
rotating the foot offsets by the craft angle around its center. -/
def getLanderFootprint (o : MathOracle) (l : Lander) : Point × Point :=
  let c := o.cos l.angle
  let s := o.sin l.angle
  ({ x := l.x + -FOOT_HALF_WIDTH * c - LANDER_SIZE * s
     y := l.y + -FOOT_HALF_WIDTH * s + LANDER_SIZE * c },
   { x := l.x + FOOT_HALF_WIDTH * c - LANDER_SIZE * s
     y := l.y + FOOT_HALF_WIDTH * s + LANDER_SIZE * c })

def crossZ (ax ay bx by_ : ℚ) : ℚ := ax * by_ - ay * bx

def onSegment (a b p : Point) : Bool :=
  decide (min a.x b.x ≤ p.x) && decide (p.x ≤ max a.x b.x) &&
  decide (min a.y b.y ≤ p.y) && decide (p.y ≤ max a.y b.y)

/-- segmentsIntersect (physics.ts): orientation-sign test with epsilon
1e-9 collinearity handling via segment containment. -/
def segmentsIntersect (a b c d : Point) : Bool :=
  let abx := b.x - a.x
  let aby := b.y - a.y
  let orient1 := crossZ abx aby (c.x - a.x) (c.y - a.y)
  let orient2 := crossZ abx aby (d.x - a.x) (d.y - a.y)
  let cdx := d.x - c.x
  let cdy := d.y - c.y
  let orient3 := crossZ cdx cdy (a.x - c.x) (a.y - c.y)
  let orient4 := crossZ cdx cdy (b.x - c.x) (b.y - c.y)
  let eps : ℚ := 1 / 10 ^ 9
  if decide (|orient1| ≤ eps) && onSegment a b c then true
  else if decide (|orient2| ≤ eps) && onSegment a b d then true
  else if decide (|orient3| ≤ eps) && onSegment c d a then true
  else if decide (|orient4| ≤ eps) && onSegment c d b then true
  else decide (orient1 * orient2 < 0) && decide (orient3 * orient4 < 0)

/-- The terrain scan of footprintIntersectsTerrain over adjacent pairs,
skipping segments whose x-range misses the foot x-range. -/
def footprintHitsSegments (leftFoot rightFoot : Point) (minFootX maxFootX : ℚ) :
    List TerrainPoint → Bool
  | a :: b :: rest =>
    let minTerrainX := min a.x b.x
    let maxTerrainX := max a.x b.x
    if decide (maxTerrainX < minFootX) || decide (minTerrainX > maxFootX) then
      footprintHitsSegments leftFoot rightFoot minFootX maxFootX (b :: rest)
    else if segmentsIntersect leftFoot rightFoot { x := a.x, y := a.y } { x := b.x, y := b.y } then
      true
    else footprintHitsSegments leftFoot rightFoot minFootX maxFootX (b :: rest)
  | _ => false

/-- footprintIntersectsTerrain (physics.ts). -/
def footprintIntersectsTerrain (o : MathOracle) (rt : Runtime) (l : Lander) : Bool :=
  let feet := getLanderFootprint o l
  let minFootX := min feet.1.x feet.2.x
  let maxFootX := max feet.1.x feet.2.x
  footprintHitsSegments feet.1 feet.2 minFootX maxFootX rt.game.terrain

/-! ## physics.ts: landing resolution, camera, particle update, tick -/

/-- The pad-search predicate of checkLanding: the craft x strictly inside
the pad with a 5px margin and the foot y within 8px of the pad height. -/
def padMatches (landerX footY : ℚ) (p : LandingPad) : Bool :=
  decide (p.x1 + 5 ≤ landerX) && decide (landerX ≤ p.x2 - 5) && decide (|footY - p.y| < 8)

/-- The safe-landing predicate of checkLanding. -/
def safeLanding (l : Lander) : Bool :=
  decide (|l.vy| ≤ MAX_SAFE_VY) && decide (|l.vx| ≤ MAX_SAFE_VX) &&
  decide (|l.angle| ≤ MAX_SAFE_ANGLE)

/-- The WeakMap getter getTrackedPeakAbsVerticalSpeed: floor at 0 (the
isFinite guard is vacuous in exact arithmetic). -/
def getTrackedPeakAbsVerticalSpeed (rt : Runtime) : ℚ :=
  max 0 rt.peakAbsVy

/-- The award computation of the landed branch of checkLanding: level,
velocity and angle bonuses, and the bucket-step velocity multiplier of
the tracked peak vertical speed; note that no fuel multiplier is stored
(the record is built without that property in the source). -/
def landingAwardAnimation (rt : Runtime) (landingAngle : ℚ) : LandingScoreAnimation :=
  let trackedPeakAbsVy := getTrackedPeakAbsVerticalSpeed rt
  let vBonus := ⌊trackedPeakAbsVy / MAX_SAFE_VY * 50⌋
  let aBonus := ⌊(1 - |landingAngle| / MAX_SAFE_ANGLE) * 50⌋
  let levelBonus := (rt.game.level : ℤ) * 100
  let baseBonus := levelBonus + vBonus + aBonus
  let multiple := if 0 < MAX_SAFE_VY then trackedPeakAbsVy / MAX_SAFE_VY else 0
  let bucket := (⌊multiple * 2⌋ : ℚ) / 2
  let velocityMultiplier := max 1 bucket
  let finalAward := jsRound ((baseBonus : ℚ) * velocityMultiplier)
  { baseBonus := baseBonus
    velocityMultiplier := velocityMultiplier
    fuelMultiplier := none
    finalAward := finalAward
    displayedAward := 0
    elapsedMs := 0
    durationMs := 1200
    committed := false }

/-- The landed branch of checkLanding: create the pending award
animation, snap the craft onto the pad, reset the peak trackers and spawn
landing particles. The audio calls are external effects. -/
def checkLandingLanded (o : MathOracle) (rt : Runtime) (l : Lander) (pad : LandingPad) :
    Runtime :=
  let anim := landingAwardAnimation rt l.angle
  let newLander := { l with y := pad.y - LANDER_SIZE, vx := 0, vy := 0, angle := 0 }
  let rt1 :=
    { rt with
      game :=
        { rt.game with
          status := GameStatus.landed
          landingScoreAnimation := some anim
          attemptPeakSpeed := 0
          lander := some newLander }
      peakAbsVy := 0 }
  spawnLandingParticles o rt1 l.x pad.y

/-- The crash branch of checkLanding: decrement lives (floored at 0 via
natural subtraction), reset the peak trackers, move to enterName or
gameOver when lives reach 0 (syncing the high score and clearing the name
entry state) and to crashed otherwise, then spawn the explosion. -/
def checkLandingCrashed (o : MathOracle) (rt : Runtime) (l : Lander) : Runtime :=
  let newLives := rt.game.lives - 1
  let rt1 :=
    { rt with
      game := { rt.game with lives := newLives, attemptPeakSpeed := 0 }
      peakAbsVy := 0 }
  let rt2 :=
    if newLives = 0 then
      let synced := syncHighScore rt1
      { synced with
        leaderboard :=
          { synced.leaderboard with
            playerInitials := "AAA"
            initialsIndex := 0
            nameSubmitted := false
            nameSubmitting := false }
        game :=
          { synced.game with
            status :=
              if 0 < synced.game.score then GameStatus.enterName else GameStatus.gameOver } }
    else
      { rt1 with game := { rt1.game with status := GameStatus.crashed } }
  spawnExplosion o rt2 l.x l.y

/-- checkLanding (physics.ts): when the craft foot reaches terrain height
or the rotated footprint clips a terrain segment, resolve the touchdown as
a safe landing on a matching pad or as a crash. -/
def checkLanding (o : MathOracle) (rt : Runtime) : Runtime :=
  match rt.game.lander with
  | none => rt
  | some l =>
    if decide (getTerrainYAtX rt l.x ≤ l.y + LANDER_SIZE) ||
        footprintIntersectsTerrain o rt l then
      match rt.game.landingPads.find? (padMatches l.x (l.y + LANDER_SIZE)) with
      | some pad =>
        if safeLanding l then checkLandingLanded o rt l pad
        else checkLandingCrashed o rt l
      | none => checkLandingCrashed o rt l
    else rt

/-- updateCamera (physics.ts). The exponential smoothing factors use the
pow oracle; divisions that the source could take at zero denominators are
exact-rational idealizations. -/
def updateCamera (o : MathOracle) (rt : Runtime) (frameScale : ℚ) : Runtime :=
  match rt.game.lander with
  | none => rt
  | some l =>
    let w := rt.canvasWidth
    let h := rt.canvasHeight
    let margin : ℚ := 80
    let cx := w / 2
    let cy := h / 2
    let dx := |l.x - cx|
    let maxVisX := w / 2 - margin
    let needZoomX := if maxVisX < dx then maxVisX / dx else 1
    let needZoomY := if l.y < margin then (h / 2 - margin) / (h / 2 - l.y + margin) else 1
    let targetZoom := max (15/100) (min 1 (min needZoomX needZoomY))
    let cameraLerp := 1 - o.pow (1 - 5/100) frameScale
    let zoom := rt.game.camera.zoom + (targetZoom - rt.game.camera.zoom) * cameraLerp
    let cam :=
      if zoom < 98/100 then
        { x := rt.game.camera.x + ((l.x - cx) * (3/10) - rt.game.camera.x) * cameraLerp
          y := rt.game.camera.y + ((l.y - cy) * (3/10) - rt.game.camera.y) * cameraLerp
          zoom := zoom
          targetZoom := targetZoom }
      else
        let damping := o.pow (95/100) frameScale
        { x := rt.game.camera.x * damping
          y := rt.game.camera.y * damping
          zoom := zoom
          targetZoom := targetZoom }
    { rt with game := { rt.game with camera := cam } }

/-- One particle step of updateParticles (physics.ts): integrate position,
apply gravity with the per-particle gravity scale, apply drag, convert
flame particles that reach terrain into dust and bounce dust off the local
terrain frame with damping on the inward normal component, then decay
life. The isFinite guards on gravityScale and drag are vacuous here. -/
def stepParticle (o : MathOracle) (rt : Runtime) (fs : ℚ) (p : Particle) : Particle :=
  let gravityScale := p.gravityScale.getD 1
  let drag := match p.drag with | some d => max 0 d | none => 0
  let x1 := p.x + p.vx * fs
  let y1 := p.y + p.vy * fs
  let vy1 := p.vy + (1/100) * gravityScale * fs
  let vx1 := p.vx
  let dragged :=
    if 0 < drag then
      let dragScale := max 0 (1 - drag * fs)
      (vx1 * dragScale, vy1 * dragScale)
    else (vx1, vy1)
  let terrainY := getTerrainYAtX rt x1
  let grounded := terrainY ≤ y1
  let converted :=
    if grounded ∧ p.kind = some ParticleKind.flame then
      { p with
        kind := some ParticleKind.dust
        color := some (p.color.getD "#c0c0c0")
        drag := some (p.drag.getD (1/10))
        gravityScale := some (p.gravityScale.getD (12/10)) }
    else p
  let bounced :=
    if grounded ∧ converted.kind = some ParticleKind.dust then
      let frame := getTerrainLocalFrameAtX o rt x1
      let tangentComponent := dragged.1 * frame.tangentX + dragged.2 * frame.tangentY
      let normalComponent := dragged.1 * frame.normalX + dragged.2 * frame.normalY
      let bouncedNormal :=
        if normalComponent < 0 then -normalComponent * EXHAUST_BOUNCE_DAMPING
        else normalComponent
      (frame.tangentX * tangentComponent + frame.normalX * bouncedNormal,
       frame.tangentY * tangentComponent + frame.normalY * bouncedNormal,
       terrainY)
    else (dragged.1, dragged.2, y1)
  { converted with
    x := x1
    y := bounced.2.2
    vx := bounced.1
    vy := bounced.2.1
    life := p.life - p.decay * fs }

/-- updateParticles (physics.ts): the backward iteration with splice is
equivalent to mapping the step over the list and removing particles whose
life dropped to 0 or below, preserving order. -/
def updateParticles (o : MathOracle) (rt : Runtime) (fs : ℚ) : Runtime :=
  { rt with
    game :=
      { rt.game with
        particles :=
          (rt.game.particles.map (stepParticle o rt fs)).filter fun p =>
            decide (0 < p.life) } }

/-- The body of update (physics.ts) after the frame scale is computed.
Outside playing: reset the peak trackers and step particles (death-march
audio is an external effect). While playing: rotation input, thrust
gating on fuel, gravity, thrust acceleration and fuel consumption with
exhaust spawn, monotone peak trackers, position integration, camera,
landing resolution and particle step, in source order. -/
def updateCore (o : MathOracle) (rt : Runtime) (frameScale : ℚ) : Runtime :=
  if rt.game.status = GameStatus.playing then
    match rt.game.lander with
    | none => rt
    | some l0 =>
      let angle1 :=
        if rt.input.arrowLeft || rt.input.keyA then l0.angle - ROTATION_SPEED * frameScale
        else l0.angle
      let angle2 :=
        if rt.input.arrowRight || rt.input.keyD then angle1 + ROTATION_SPEED * frameScale
        else angle1
      let angle3 :=
        if rt.input.tiltAvailable then
          let dead : ℚ := 3
          let t :=
            if |rt.input.tiltRaw| < dead then 0
            else (rt.input.tiltRaw - jsSign rt.input.tiltRaw * dead) / (45 - dead)
          angle2 + t * ROTATION_SPEED * (18/10) * frameScale
        else angle2
      let thrustRequested := rt.input.arrowUp || rt.input.keyW || rt.input.touchThrusting
      let thrusting := thrustRequested && decide (0 < l0.fuel)
      let vy1 := l0.vy + GRAVITY * frameScale
      let vx2 := if thrusting then l0.vx + o.sin angle3 * THRUST * frameScale else l0.vx
      let vy2 := if thrusting then vy1 - o.cos angle3 * THRUST * frameScale else vy1
      let fuel2 :=
        if thrusting then max 0 (l0.fuel - FUEL_CONSUMPTION_RATE * frameScale) else l0.fuel
      let l1 : Lander :=
        { l0 with angle := angle3, thrusting := thrusting, vx := vx2, vy := vy2, fuel := fuel2 }
      let rt1 := { rt with game := { rt.game with lander := some l1 } }
      let rt2 :=
        if thrusting then
          spawnThrustParticles o rt1 (l0.x - o.sin angle3 * LANDER_SIZE)
            (l0.y + o.cos angle3 * LANDER_SIZE) angle3
        else rt1
      let priorPeakSpeed := max 0 rt.game.attemptPeakSpeed
      let currentSpeed := o.hypot vx2 vy2
      let newPeakSpeed := max priorPeakSpeed currentSpeed
      let newPeakAbsVy := max (max 0 rt.peakAbsVy) |vy2|
      let l2 : Lander := { l1 with x := l0.x + vx2 * frameScale, y := l0.y + vy2 * frameScale }
      let rt3 :=
        { rt2 with
          game := { rt2.game with lander := some l2, attemptPeakSpeed := newPeakSpeed }
          peakAbsVy := newPeakAbsVy }
      updateParticles o (checkLanding o (updateCamera o rt3 frameScale)) frameScale
  else
    let rt1 := { rt with game := { rt.game with attemptPeakSpeed := 0 }, peakAbsVy := 0 }
    updateParticles o rt1 frameScale

/-- update (physics.ts): the per-tick step, with the elapsed time dt
capped at 0.1 seconds and scaled to 60fps-equivalent frame units. -/
def update (o : MathOracle) (rt : Runtime) (dt : ℚ := 1/60) : Runtime :=
  updateCore o rt (min dt (1/10) * 60)

/-! ## Game-loop module: score commit lifecycle, level/session transitions -/

/-- resetAttemptScopedState: clear the attempt peak speed and the pending
landing animation. -/
def resetAttemptScopedState (rt : Runtime) : Runtime :=
  { rt with
    game := { rt.game with attemptPeakSpeed := 0, landingScoreAnimation := none } }

/-- startLevel: set the level and status, regenerate terrain, pads and
stars, clear particles and attempt-scoped state, spawn a fresh craft and
reset the camera (audio calls are external effects). -/
def startLevel (o : MathOracle) (rt : Runtime) (lvl : ℕ) : Runtime :=
  let terrainData := generateTerrain rt.canvasWidth rt.canvasHeight lvl
  let starDraw := generateStars o rt.canvasWidth rt.canvasHeight rt.randCursor
  let rt1 :=
    { rt with
      randCursor := starDraw.2
      game :=
        { rt.game with
          level := lvl
          status := GameStatus.playing
          terrain := terrainData.points
          landingPads := terrainData.landingPads
          stars := starDraw.1
          particles := [] } }
  let rt2 := resetAttemptScopedState rt1
  { rt2 with
    game :=
      { rt2.game with
        lander := some
          { x := rt.canvasWidth / 2
            y := 60
            vx := 0
            vy := 0
            angle := 0
            thrusting := false
            outOfBounds := false
            fuel := STARTING_FUEL
            maxFuel := STARTING_FUEL }
        camera := { x := 0, y := 0, zoom := 1, targetZoom := 1 } } }

/-- beginTitle: return to the title screen with a fresh session (lives,
score, level) and regenerated stars. -/
def beginTitle (o : MathOracle) (rt : Runtime) : Runtime :=
  let rt1 :=
    { rt with
      game :=
        { rt.game with
          status := GameStatus.title
          lives := STARTING_LIVES
          score := 0
          level := 1 } }
  let rt2 := resetAttemptScopedState rt1
  let starDraw := generateStars o rt2.canvasWidth rt2.canvasHeight rt2.randCursor
  { rt2 with
    randCursor := starDraw.2
    game := { rt2.game with stars := starDraw.1 } }

/-- commitLandingAwardIfPending: add the pending final award to the
permanent score exactly once, sync the high score, mark the animation
committed and pin the displayed award to the final award. -/
def commitLandingAwardIfPending (rt : Runtime) : Runtime :=
  match rt.game.landingScoreAnimation with
  | none => rt
  | some a =>
    if a.committed then rt
    else
      let rt1 := syncHighScore
        { rt with game := { rt.game with score := rt.game.score + a.finalAward } }
      { rt1 with
        game :=
          { rt1.game with
            landingScoreAnimation :=
              some { a with committed := true, displayedAward := a.finalAward } } }

/-- updateLandingScoreAnimation: while landed with a pending animation,
advance the elapsed time (capped at the duration), ease the displayed
award toward the final award with easeOutCubic, and commit once the
duration has elapsed. -/
def updateLandingScoreAnimation (rt : Runtime) (dt : ℚ) : Runtime :=
  if rt.game.status = GameStatus.landed then
    match rt.game.landingScoreAnimation with
    | none => rt
    | some a =>
      let durationMs := if 0 < a.durationMs then a.durationMs else 1200
      let elapsed := min durationMs (a.elapsedMs + dt * 1000)
      let progress := min 1 (elapsed / durationMs)
      let easedProgress := 1 - (1 - progress) ^ 3
      let a1 :=
        { a with
          elapsedMs := elapsed
          displayedAward := jsRound ((a.finalAward : ℚ) * easedProgress) }
      let rt1 := { rt with game := { rt.game with landingScoreAnimation := some a1 } }
      if durationMs ≤ elapsed then commitLandingAwardIfPending rt1 else rt1
  else rt

/-- The synchronous part of submitScore. The deployed leaderboard URL
does not contain the YOUR_SUBDOMAIN placeholder, so the guard reduces to
score being positive; the network round trip itself is asynchronous and
only its synchronous effects on the session are modelled. -/
def submitScore (rt : Runtime) : Runtime :=
  if 0 < rt.game.score then
    { rt with leaderboard := { rt.leaderboard with nameSubmitting := true } }
  else
    { rt with
      leaderboard := { rt.leaderboard with nameSubmitted := true }
      game := { rt.game with status := GameStatus.leaderboard } }

/-- The Space branch of handleNameEntryKey: Space is neither an arrow nor
a letter, so only the submit branch (guarded on not already submitting)
can fire. -/
def handleNameEntrySpace (rt : Runtime) : Runtime :=
  if rt.leaderboard.nameSubmitting then rt else submitScore rt

/-- handleKeyDown for the Space key: the source is a sequence of
if-statements, each reading the status as possibly modified by the
previous one, which is modelled faithfully as sequential conditionals. -/
def handleSpaceKeyDown (o : MathOracle) (rt0 : Runtime) : Runtime :=
  let rt1 :=
    if rt0.game.status = GameStatus.title then
      startLevel o
        { rt0 with game := { rt0.game with lives := STARTING_LIVES, score := 0 } } 1
    else rt0
  let rt2 :=
    if rt1.game.status = GameStatus.landed ∨ rt1.game.status = GameStatus.crashed then
      if rt1.game.status = GameStatus.landed then
        startLevel o (commitLandingAwardIfPending rt1) (rt1.game.level + 1)
      else startLevel o rt1 rt1.game.level
    else rt1
  let rt3 := if rt2.game.status = GameStatus.gameOver then beginTitle o rt2 else rt2
  let rt4 := if rt3.game.status = GameStatus.enterName then handleNameEntrySpace rt3 else rt3
  if rt4.game.status = GameStatus.leaderboard then beginTitle o rt4 else rt4

/-! ## Spec-side award formulas

Modelled from the spec for comparison against the source award
computation: the continuous clamped multiplier variant documented as
canonical by the spec (the safe-speed denominator hypot(MAX_SAFE_VX,
MAX_SAFE_VY) is irrational and is passed in as a parameter). -/

/-- Modelled from the spec: velocityMultiplier equals
clamp(1.25 - 0.2 times (peakSpeed over hypot(MAX_SAFE_VX, MAX_SAFE_VY)),
0.85, 1.25); the hypot value is the safeSpeed parameter. -/
def specVelocityMultiplier (peakSpeed safeSpeed : ℚ) : ℚ :=
  clamp (125/100 - (2/10) * (peakSpeed / safeSpeed)) (85/100) (125/100)

/-- Modelled from the spec: fuelMultiplier equals
clamp(0.85 + 0.4 times (remainingFuel over maxFuel), 0.85, 1.25). -/
def specFuelMultiplier (remainingFuel maxFuel : ℚ) : ℚ :=
  clamp (85/100 + (4/10) * (remainingFuel / maxFuel)) (85/100) (125/100)

/-- Modelled from the spec: finalAward equals
round(baseBonus times velocityMultiplier times fuelMultiplier). -/
def specFinalAward (baseBonus : ℤ) (velocityMultiplier fuelMultiplier : ℚ) : ℤ :=
  jsRound ((baseBonus : ℚ) * velocityMultiplier * fuelMultiplier)

/-! ## Concrete fixtures and transition-system scaffolding -/

/-- A concrete oracle interpretation used for witness evaluations
(any fixed interpretation of the transcendental functions is admissible
for instantiating oracle-parametric theorems). -/
def oracle0 : MathOracle :=
  { sin := fun _ => 0
    cos := fun _ => 1
    hypot := fun _ _ => 0
    pow := fun _ _ => 1
    pi := 0
    rand := fun _ => 0 }

/-- The flat two-point terrain of the unit-test fixture. -/
def flatTerrain : List TerrainPoint :=
  [{ x := 0, y := 120 }, { x := 300, y := 120 }]

/-- The central landing pad of the unit-test fixture. -/
def centralPad : LandingPad := { x1 := 100, x2 := 200, y := 120, cx := 150 }

/-- A playing-state runtime on the unit-test fixture with the given
craft, level and lives. -/
def testRuntime (l : Lander) (lvl : ℕ) (lives : ℕ) : Runtime :=
  { canvasWidth := 300
    canvasHeight := 200
    input := {}
    leaderboard := {}
    game :=
      { status := GameStatus.playing
        level := lvl
        score := 0
        lives := lives
        highScore := 0
        lander := some l
        terrain := flatTerrain
        landingPads := [centralPad]
        stars := []
        particles := []
        attemptPeakSpeed := 0
        landingScoreAnimation := none
        camera := { x := 0, y := 0, zoom := 1, targetZoom := 1 } }
    peakAbsVy := 0
    randCursor := 0 }

/-- A craft resting on the central pad with the given velocities, angle
and fuel. -/
def padLander (vx vy angle fuel : ℚ) : Lander :=
  { x := 150
    y := 120 - LANDER_SIZE + 1/10
    vx := vx
    vy := vy
    angle := angle
    thrusting := false
    outOfBounds := false
    fuel := fuel
    maxFuel := 100 }

/-- Events of the landing-award lifecycle: a frame tick feeding the score
animation, or a lifecycle advance (the continue input). -/
inductive ScoreEvent
  | tick (dt : ℚ)
  | advance
  deriving Repr

/-- One lifecycle step: ticks run the score animation update; advance
runs the Space key handler. -/
def scoreStep (o : MathOracle) (rt : Runtime) : ScoreEvent → Runtime
  | ScoreEvent.tick dt => updateLandingScoreAnimation rt dt
  | ScoreEvent.advance => handleSpaceKeyDown o rt

/-- Run a list of lifecycle events. -/
def runScoreEvents (o : MathOracle) (evs : List ScoreEvent) (rt : Runtime) : Runtime :=
  evs.foldl (scoreStep o) rt

/-- Lifecycle invariant for a landing with pre-landing score S and final
award F: either still landed with the animation present and the award
applied exactly when committed (with the displayed award pinned to F once
committed), or already advanced to the next level with the award applied
exactly once. -/
def landingAwardInv (S F : ℤ) (rt : Runtime) : Prop :=
  (rt.game.status = GameStatus.landed ∧
    ∃ a, rt.game.landingScoreAnimation = some a ∧ a.finalAward = F ∧ a.durationMs = 1200 ∧
      ((a.committed = false ∧ rt.game.score = S) ∨
       (a.committed = true ∧ rt.game.score = S + F ∧ a.displayedAward = F ∧
        a.elapsedMs = 1200))) ∨
  (rt.game.status = GameStatus.playing ∧ rt.game.landingScoreAnimation = none ∧
    rt.game.score = S + F)

/-- The session transition relation used for reachability invariants: a
physics tick, a score-animation tick, or a Space keypress. -/
inductive SessionStep : Runtime → Runtime → Prop
  | tick (o : MathOracle) (dt : ℚ) (rt : Runtime) : SessionStep rt (update o rt dt)
  | animTick (dt : ℚ) (rt : Runtime) : SessionStep rt (updateLandingScoreAnimation rt dt)
  | spaceKey (o : MathOracle) (rt : Runtime) : SessionStep rt (handleSpaceKeyDown o rt)

/-- Reachability from an initial runtime through session steps. -/
def SessionReachable (init rt : Runtime) : Prop :=
  Relation.ReflTransGen SessionStep init rt

/-- The score bookkeeping invariant: nonnegative score bounded by the
high score, level at least 1, and any pending award nonnegative. -/
def ScoreInv (rt : Runtime) : Prop :=
  0 ≤ rt.game.score ∧ rt.game.score ≤ rt.game.highScore ∧ 1 ≤ rt.game.level ∧
    ∀ a, rt.game.landingScoreAnimation = some a → 0 ≤ a.finalAward

/-- Relation stating that two runtimes agree on everything except the
particle list and the random-stream cursor (the only state touched by the
particle spawn loops). -/
structure ParticlesOnly (rt rt' : Runtime) : Prop where
  canvasWidth_eq : rt'.canvasWidth = rt.canvasWidth
  canvasHeight_eq : rt'.canvasHeight = rt.canvasHeight
  input_eq : rt'.input = rt.input
  leaderboard_eq : rt'.leaderboard = rt.leaderboard
  peakAbsVy_eq : rt'.peakAbsVy = rt.peakAbsVy
  status_eq : rt'.game.status = rt.game.status
  level_eq : rt'.game.level = rt.game.level
  score_eq : rt'.game.score = rt.game.score
  lives_eq : rt'.game.lives = rt.game.lives
  highScore_eq : rt'.game.highScore = rt.game.highScore
  lander_eq : rt'.game.lander = rt.game.lander
  terrain_eq : rt'.game.terrain = rt.game.terrain
  landingPads_eq : rt'.game.landingPads = rt.game.landingPads
  stars_eq : rt'.game.stars = rt.game.stars
  attemptPeakSpeed_eq : rt'.game.attemptPeakSpeed = rt.game.attemptPeakSpeed
  landingScoreAnimation_eq : rt'.game.landingScoreAnimation = rt.game.landingScoreAnimation
  camera_eq : rt'.game.camera = rt.game.camera

/-- The pending animation produced by the source award computation on the
concrete gentle touchdown fixture (level 1, zero tracked peaks, level
bonus 100 plus angle bonus 50). -/
def animGentle : LandingScoreAnimation :=
  { baseBonus := 150
    velocityMultiplier := 1
    fuelMultiplier := none
    finalAward := 150
    displayedAward := 0
    elapsedMs := 0
    durationMs := 1200
    committed := false }

/-- A landed runtime with the gentle-touchdown pending animation, used to
instantiate the lifecycle theorems. -/
def landedRuntime : Runtime :=
  { testRuntime (padLander 0 0 0 100) 1 3 with
    game :=
      { (testRuntime (padLander 0 0 0 100) 1 3).game with
        status := GameStatus.landed
        landingScoreAnimation := some animGentle } }

/-- The three-point terrain of the interpolation example. -/
def interpTerrain : List TerrainPoint :=
  [{ x := 0, y := 100 }, { x := 100, y := 140 }, { x := 200, y := 160 }]

/-- Runtime carrying the interpolation-example terrain. -/
def interpRuntime : Runtime :=
  { testRuntime (padLander 0 0 0 100) 1 3 with
    game := { (testRuntime (padLander 0 0 0 100) 1 3).game with terrain := interpTerrain } }

/-! ## Basic lemmas -/

theorem jsRound_intCast (n : ℤ) : jsRound (n : ℚ) = n := by
  unfold jsRound
  rw [add_comm, Int.floor_add_int]
  norm_num

theorem particlesOnly_refl (rt : Runtime) : ParticlesOnly rt rt := by
  constructor <;> rfl

theorem particlesOnly_trans {a b c : Runtime}
    (h1 : ParticlesOnly a b) (h2 : ParticlesOnly b c) : ParticlesOnly a c := by
  cases h1; cases h2
  constructor <;> simp_all

theorem pushParticle_particlesOnly (rt : Runtime) (p : Particle) :
    ParticlesOnly rt (pushParticle rt p) := by
  constructor <;> rfl

theorem spawnThrustLoop_particlesOnly (o : MathOracle) (x y a : ℚ) :
    ∀ (i b : ℕ) (rt : Runtime), ParticlesOnly rt (spawnThrustLoop o x y a i b rt) := by
  intro i
  induction i with
  | zero =>
    intro b rt
    rw [spawnThrustLoop]
    exact particlesOnly_refl rt
  | succ i ih =>
    intro b rt
    cases b with
    | zero =>
      rw [spawnThrustLoop]
      exact particlesOnly_refl rt
    | succ b =>
      rw [spawnThrustLoop]
      refine particlesOnly_trans ?_ (ih b _)
      constructor <;> rfl

theorem spawnThrustParticles_particlesOnly (o : MathOracle) (rt : Runtime) (x y a : ℚ) :
    ParticlesOnly rt (spawnThrustParticles o rt x y a) := by
  by_cases h :
    min MAX_EXHAUST_SPAWN_PER_FRAME
      (MAX_SUSTAINED_EXHAUST_PARTICLES - countSustainedExhaustParticles rt) = 0
  · simp only [spawnThrustParticles, h, if_true]
    exact particlesOnly_refl rt
  · simp only [spawnThrustParticles, h, if_false]
    exact spawnThrustLoop_particlesOnly o x y a 2 _ rt

theorem spawnExplosionLoop_particlesOnly (o : MathOracle) (x y : ℚ) :
    ∀ (n : ℕ) (rt : Runtime), ParticlesOnly rt (spawnExplosionLoop o x y n rt) := by
  intro n
  induction n with
  | zero =>
    intro rt
    rw [spawnExplosionLoop]
    exact particlesOnly_refl rt
  | succ n ih =>
    intro rt
    rw [spawnExplosionLoop]
    refine particlesOnly_trans ?_ (ih _)
    constructor <;> rfl

theorem spawnExplosion_particlesOnly (o : MathOracle) (rt : Runtime) (x y : ℚ) :
    ParticlesOnly rt (spawnExplosion o rt x y) :=
  spawnExplosionLoop_particlesOnly o x y 60 rt

theorem spawnLandingLoop_particlesOnly (o : MathOracle) (x y : ℚ) :
    ∀ (n : ℕ) (rt : Runtime), ParticlesOnly rt (spawnLandingLoop o x y n rt) := by
  intro n
  induction n with
  | zero =>
    intro rt
    rw [spawnLandingLoop]
    exact particlesOnly_refl rt
  | succ n ih =>
    intro rt
    rw [spawnLandingLoop]
    refine particlesOnly_trans ?_ (ih _)
    constructor <;> rfl

theorem spawnLandingParticles_particlesOnly (o : MathOracle) (rt : Runtime) (x y : ℚ) :
    ParticlesOnly rt (spawnLandingParticles o rt x y) :=
  spawnLandingLoop_particlesOnly o x y 30 rt

/-! ## checkLanding branch characterizations -/

theorem checkLanding_eq_landed (o : MathOracle) (rt : Runtime) (l : Lander) (pad : LandingPad)
    (hl : rt.game.lander = some l)
    (hcontact :
      (decide (getTerrainYAtX rt l.x ≤ l.y + LANDER_SIZE) ||
        footprintIntersectsTerrain o rt l) = true)
    (hpad : rt.game.landingPads.find? (padMatches l.x (l.y + LANDER_SIZE)) = some pad)
    (hsafe : safeLanding l = true) :
    checkLanding o rt = checkLandingLanded o rt l pad := by
  unfold checkLanding
  rw [hl]
  simp only [hcontact, hpad, hsafe, if_true]

theorem checkLanding_eq_crashed (o : MathOracle) (rt : Runtime) (l : Lander) (pad : LandingPad)
    (hl : rt.game.lander = some l)
    (hcontact :
      (decide (getTerrainYAtX rt l.x ≤ l.y + LANDER_SIZE) ||
        footprintIntersectsTerrain o rt l) = true)
    (hpad : rt.game.landingPads.find? (padMatches l.x (l.y + LANDER_SIZE)) = some pad)
    (hviol : safeLanding l = false) :
    checkLanding o rt = checkLandingCrashed o rt l := by
  unfold checkLanding
  rw [hl]
  simp only [hcontact, hpad, hviol, Bool.false_eq_true, if_false, if_true]

theorem checkLandingLanded_status (o : MathOracle) (rt : Runtime) (l : Lander)
    (pad : LandingPad) : (checkLandingLanded o rt l pad).game.status = GameStatus.landed := by
  unfold checkLandingLanded
  exact (spawnLandingParticles_particlesOnly o _ l.x pad.y).status_eq

theorem checkLandingLanded_score (o : MathOracle) (rt : Runtime) (l : Lander)
    (pad : LandingPad) : (checkLandingLanded o rt l pad).game.score = rt.game.score := by
  unfold checkLandingLanded
  exact (spawnLandingParticles_particlesOnly o _ l.x pad.y).score_eq

theorem checkLandingLanded_anim (o : MathOracle) (rt : Runtime) (l : Lander)
    (pad : LandingPad) :
    (checkLandingLanded o rt l pad).game.landingScoreAnimation =
      some (landingAwardAnimation rt l.angle) := by
  unfold checkLandingLanded
  exact (spawnLandingParticles_particlesOnly o _ l.x pad.y).landingScoreAnimation_eq

theorem checkLandingLanded_lander (o : MathOracle) (rt : Runtime) (l : Lander)
    (pad : LandingPad) :
    (checkLandingLanded o rt l pad).game.lander =
      some { l with y := pad.y - LANDER_SIZE, vx := 0, vy := 0, angle := 0 } := by
  unfold checkLandingLanded
  exact (spawnLandingParticles_particlesOnly o _ l.x pad.y).lander_eq

theorem checkLandingLanded_lives (o : MathOracle) (rt : Runtime) (l : Lander)
    (pad : LandingPad) : (checkLandingLanded o rt l pad).game.lives = rt.game.lives := by
  unfold checkLandingLanded
  exact (spawnLandingParticles_particlesOnly o _ l.x pad.y).lives_eq

theorem checkLandingLanded_level (o : MathOracle) (rt : Runtime) (l : Lander)
    (pad : LandingPad) : (checkLandingLanded o rt l pad).game.level = rt.game.level := by
  unfold checkLandingLanded
  exact (spawnLandingParticles_particlesOnly o _ l.x pad.y).level_eq

theorem checkLandingLanded_highScore (o : MathOracle) (rt : Runtime) (l : Lander)
    (pad : LandingPad) :
    (checkLandingLanded o rt l pad).game.highScore = rt.game.highScore := by
  unfold checkLandingLanded
  exact (spawnLandingParticles_particlesOnly o _ l.x pad.y).highScore_eq

theorem syncHighScore_score (rt : Runtime) :
    (syncHighScore rt).game.score = rt.game.score := by
  unfold syncHighScore
  split <;> rfl

theorem syncHighScore_lives (rt : Runtime) :
    (syncHighScore rt).game.lives = rt.game.lives := by
  unfold syncHighScore
  split <;> rfl

theorem syncHighScore_level (rt : Runtime) :
    (syncHighScore rt).game.level = rt.game.level := by
  unfold syncHighScore
  split <;> rfl

theorem syncHighScore_anim (rt : Runtime) :
    (syncHighScore rt).game.landingScoreAnimation = rt.game.landingScoreAnimation := by
  unfold syncHighScore
  split <;> rfl

theorem syncHighScore_status (rt : Runtime) :
    (syncHighScore rt).game.status = rt.game.status := by
  unfold syncHighScore
  split <;> rfl

theorem syncHighScore_score_le (rt : Runtime) :
    (syncHighScore rt).game.score ≤ (syncHighScore rt).game.highScore := by
  unfold syncHighScore
  split
  · exact le_refl _
  · next h => exact le_of_not_lt h

theorem syncHighScore_highScore_mono (rt : Runtime) :
    rt.game.highScore ≤ (syncHighScore rt).game.highScore := by
  unfold syncHighScore
  split
  · next h => exact le_of_lt h
  · exact le_refl _

theorem safeLanding_iff (l : Lander) :
    safeLanding l = true ↔
      |l.vy| ≤ MAX_SAFE_VY ∧ |l.vx| ≤ MAX_SAFE_VX ∧ |l.angle| ≤ MAX_SAFE_ANGLE := by
  simp [safeLanding, Bool.and_eq_true, decide_eq_true_eq, and_assoc]

theorem checkLandingCrashed_lives (o : MathOracle) (rt : Runtime) (l : Lander) :
    (checkLandingCrashed o rt l).game.lives = rt.game.lives - 1 := by
  unfold checkLandingCrashed
  by_cases h : rt.game.lives - 1 = 0
  · simp only [h, if_true]
    rw [(spawnExplosion_particlesOnly o _ l.x l.y).lives_eq]
    show (syncHighScore _).game.lives = _
    rw [syncHighScore_lives]
  · simp only [h, if_false]
    exact (spawnExplosion_particlesOnly o _ l.x l.y).lives_eq

theorem checkLandingCrashed_score (o : MathOracle) (rt : Runtime) (l : Lander) :
    (checkLandingCrashed o rt l).game.score = rt.game.score := by
  unfold checkLandingCrashed
  by_cases h : rt.game.lives - 1 = 0
  · simp only [h, if_true]
    rw [(spawnExplosion_particlesOnly o _ l.x l.y).score_eq]
    exact syncHighScore_score _
  · simp only [h, if_false]
    exact (spawnExplosion_particlesOnly o _ l.x l.y).score_eq

theorem checkLandingCrashed_status_of_lives (o : MathOracle) (rt : Runtime) (l : Lander)
    (h : rt.game.lives - 1 ≠ 0) :
    (checkLandingCrashed o rt l).game.status = GameStatus.crashed := by
  unfold checkLandingCrashed
  simp only [h, if_false]
  exact (spawnExplosion_particlesOnly o _ l.x l.y).status_eq

theorem checkLandingCrashed_status_ne_landed (o : MathOracle) (rt : Runtime) (l : Lander) :
    (checkLandingCrashed o rt l).game.status ≠ GameStatus.landed := by
  unfold checkLandingCrashed
  by_cases h : rt.game.lives - 1 = 0
  · simp only [h, if_true]
    rw [(spawnExplosion_particlesOnly o _ l.x l.y).status_eq]
    dsimp only
    split <;> simp
  · simp only [h, if_false]
    rw [(spawnExplosion_particlesOnly o _ l.x l.y).status_eq]
    simp

/-! ## C2: deferred award on safe touchdown -/

/-- C2: immediately after a safe touchdown is resolved by the landing
resolver (craft in contact, matching pad, all safety thresholds met), the
status is landed, the permanent score is unchanged, and a freshly created
pending animation exists with committed false, displayedAward 0,
elapsedMs 0 and durationMs 1200; the final award has not been added to
the score at that point. -/
theorem safeTouchdown_defers_award (o : MathOracle) (rt : Runtime) (l : Lander)
    (pad : LandingPad)
    (_hst : rt.game.status = GameStatus.playing)
    (hl : rt.game.lander = some l)
    (hcontact :
      (decide (getTerrainYAtX rt l.x ≤ l.y + LANDER_SIZE) ||
        footprintIntersectsTerrain o rt l) = true)
    (hpad : rt.game.landingPads.find? (padMatches l.x (l.y + LANDER_SIZE)) = some pad)
    (hsafe : safeLanding l = true) :
    (checkLanding o rt).game.status = GameStatus.landed ∧
    (checkLanding o rt).game.score = rt.game.score ∧
    ∃ a, (checkLanding o rt).game.landingScoreAnimation = some a ∧
      a.committed = false ∧ a.displayedAward = 0 ∧ a.elapsedMs = 0 ∧ a.durationMs = 1200 := by
  rw [checkLanding_eq_landed o rt l pad hl hcontact hpad hsafe]
  exact ⟨checkLandingLanded_status o rt l pad, checkLandingLanded_score o rt l pad,
    landingAwardAnimation rt l.angle, checkLandingLanded_anim o rt l pad, rfl, rfl, rfl, rfl⟩

/-- Witness for C2 on the concrete gentle touchdown fixture. -/
theorem safeTouchdown_defers_award_witness :
    (checkLanding oracle0 (testRuntime (padLander 0 0 0 100) 1 3)).game.status =
        GameStatus.landed ∧
    (checkLanding oracle0 (testRuntime (padLander 0 0 0 100) 1 3)).game.score =
        (testRuntime (padLander 0 0 0 100) 1 3).game.score ∧
    ∃ a,
      (checkLanding oracle0 (testRuntime (padLander 0 0 0 100) 1 3)).game.landingScoreAnimation
          = some a ∧
      a.committed = false ∧ a.displayedAward = 0 ∧ a.elapsedMs = 0 ∧ a.durationMs = 1200 := by
  refine safeTouchdown_defers_award oracle0 (testRuntime (padLander 0 0 0 100) 1 3)
    (padLander 0 0 0 100) centralPad rfl rfl ?_ ?_ ?_
  · have hterr :
        getTerrainYAtX (testRuntime (padLander 0 0 0 100) 1 3) (padLander 0 0 0 100).x = 120 := by
      norm_num [getTerrainYAtX, testRuntime, flatTerrain, findInterp, padLander]
    rw [hterr]
    norm_num [padLander, LANDER_SIZE]
  · norm_num [testRuntime, List.find?, padMatches, centralPad, padLander, LANDER_SIZE, abs_lt]
  · norm_num [safeLanding, padLander, MAX_SAFE_VY, MAX_SAFE_VX, MAX_SAFE_ANGLE]

/-! ## C4: crash on excess horizontal speed, and the safety predicate -/

/-- C4: for every playing state with at least 2 lives, a touchdown over a
pad whose absolute horizontal speed exceeds MAX_SAFE_VX (other safety
conditions met) is resolved as a crash with exactly one life lost; and on
any touchdown over a pad, the resolution is a landing exactly when all
three safety thresholds (vertical speed, horizontal speed, angle) hold. -/
theorem excess_vx_crashes_and_safety_characterization :
    (∀ (o : MathOracle) (rt : Runtime) (l : Lander) (pad : LandingPad),
      rt.game.status = GameStatus.playing →
      rt.game.lander = some l →
      (decide (getTerrainYAtX rt l.x ≤ l.y + LANDER_SIZE) ||
        footprintIntersectsTerrain o rt l) = true →
      rt.game.landingPads.find? (padMatches l.x (l.y + LANDER_SIZE)) = some pad →
      |l.vy| ≤ MAX_SAFE_VY → |l.angle| ≤ MAX_SAFE_ANGLE → MAX_SAFE_VX < |l.vx| →
      2 ≤ rt.game.lives →
      (checkLanding o rt).game.status = GameStatus.crashed ∧
        (checkLanding o rt).game.lives = rt.game.lives - 1) ∧
    ∀ (o : MathOracle) (rt : Runtime) (l : Lander) (pad : LandingPad),
      rt.game.status = GameStatus.playing →
      rt.game.lander = some l →
      (decide (getTerrainYAtX rt l.x ≤ l.y + LANDER_SIZE) ||
        footprintIntersectsTerrain o rt l) = true →
      rt.game.landingPads.find? (padMatches l.x (l.y + LANDER_SIZE)) = some pad →
      ((checkLanding o rt).game.status = GameStatus.landed ↔
        |l.vy| ≤ MAX_SAFE_VY ∧ |l.vx| ≤ MAX_SAFE_VX ∧ |l.angle| ≤ MAX_SAFE_ANGLE) := by
  constructor
  · intro o rt l pad _hst hl hcontact hpad _hvy _hangle hvx hlives
    have hviol : safeLanding l = false := by
      have hnot : ¬(|l.vx| ≤ MAX_SAFE_VX) := not_le.mpr hvx
      simp [safeLanding, hnot]
    rw [checkLanding_eq_crashed o rt l pad hl hcontact hpad hviol]
    have hne : rt.game.lives - 1 ≠ 0 := by omega
    exact ⟨checkLandingCrashed_status_of_lives o rt l hne, checkLandingCrashed_lives o rt l⟩
  · intro o rt l pad _hst hl hcontact hpad
    constructor
    · intro hlanded
      by_cases hsafe : safeLanding l = true
      · exact (safeLanding_iff l).mp hsafe
      · exfalso
        have hfalse : safeLanding l = false := by
          cases hsb : safeLanding l
          · rfl
          · exact absurd hsb hsafe
        rw [checkLanding_eq_crashed o rt l pad hl hcontact hpad hfalse] at hlanded
        exact checkLandingCrashed_status_ne_landed o rt l hlanded
    · intro hsafe
      rw [checkLanding_eq_landed o rt l pad hl hcontact hpad ((safeLanding_iff l).mpr hsafe)]
      exact checkLandingLanded_status o rt l pad

/-- Witness for C4: a touchdown at horizontal speed 0.61 over the pad with
2 lives crashes and leaves exactly 1 life. -/
theorem excess_vx_crashes_witness :
    (checkLanding oracle0 (testRuntime (padLander (61/100) 0 0 100) 1 2)).game.status =
        GameStatus.crashed ∧
    (checkLanding oracle0 (testRuntime (padLander (61/100) 0 0 100) 1 2)).game.lives =
        (testRuntime (padLander (61/100) 0 0 100) 1 2).game.lives - 1 := by
  refine excess_vx_crashes_and_safety_characterization.1 oracle0
    (testRuntime (padLander (61/100) 0 0 100) 1 2) (padLander (61/100) 0 0 100) centralPad
    rfl rfl ?_ ?_ ?_ ?_ ?_ ?_
  · have hterr :
        getTerrainYAtX (testRuntime (padLander (61/100) 0 0 100) 1 2)
          (padLander (61/100) 0 0 100).x = 120 := by
      norm_num [getTerrainYAtX, testRuntime, flatTerrain, findInterp, padLander]
    rw [hterr]
    norm_num [padLander, LANDER_SIZE]
  · norm_num [testRuntime, List.find?, padMatches, centralPad, padLander, LANDER_SIZE, abs_lt]
  · norm_num [padLander, MAX_SAFE_VY]
  · norm_num [padLander, MAX_SAFE_ANGLE]
  · show MAX_SAFE_VX < |(padLander (61/100) 0 0 100).vx|
    rw [show (padLander (61/100) 0 0 100).vx = 61/100 from rfl,
      abs_of_pos (by norm_num : (0:ℚ) < 61/100)]
    norm_num [MAX_SAFE_VX]
  · norm_num [testRuntime]

/-! ## C5: terrain generation determinism -/

/-- C5: generateTerrain is deterministic: for every canvas size and every
level at least 1, two calls with identical inputs return identical terrain
points and identical landing pad lists, and the generator is exactly the
seeded computation with seed level * 7919 (all randomness flows through
the mulberry32 state threaded from that seed). -/
theorem generateTerrain_deterministic (w h : ℚ) (lvl : ℕ) (_hlvl : 1 ≤ lvl) :
    (generateTerrain w h lvl = generateTerrain w h lvl ∧
      (generateTerrain w h lvl).points = (generateTerrain w h lvl).points ∧
      (generateTerrain w h lvl).landingPads = (generateTerrain w h lvl).landingPads) ∧
    generateTerrain w h lvl = generateTerrainWithSeed w h lvl (lvl * 7919) :=
  ⟨⟨rfl, rfl, rfl⟩, rfl⟩

/-- Witness for C5 at a concrete canvas and level. -/
theorem generateTerrain_deterministic_witness :
    (1 ≤ 1) ∧ generateTerrain 300 200 1 = generateTerrainWithSeed 300 200 1 (1 * 7919) :=
  ⟨le_refl 1, (generateTerrain_deterministic 300 200 1 (le_refl 1)).2⟩

/-! ## C7: time-step clamping -/

/-- C7: the per-tick time step is clamped: for nonnegative elapsed time
the frame scale min(dt, 0.1) * 60 computed by update equals
clamp(dt, 0, 0.1) * 60, and for every oracle and state, update with
dt = 0.5 produces exactly the same result (hence the same velocity
change) as update with dt = 0.1. -/
theorem update_dt_clamped :
    (∀ dt : ℚ, 0 ≤ dt → min dt (1/10) * 60 = clamp dt 0 (1/10) * 60) ∧
    ∀ (o : MathOracle) (rt : Runtime), update o rt (1/2) = update o rt (1/10) := by
  constructor
  · intro dt hdt
    unfold clamp
    rw [max_eq_right hdt, min_comm]
  · intro o rt
    show updateCore o rt (min (1/2) (1/10) * 60) = updateCore o rt (min (1/10) (1/10) * 60)
    norm_num

/-- Witness for C7 at a concrete nonnegative dt and a concrete state. -/
theorem update_dt_clamped_witness :
    (min (1/20 : ℚ) (1/10) * 60 = clamp (1/20) 0 (1/10) * 60) ∧
    update oracle0 landedRuntime (1/2) = update oracle0 landedRuntime (1/10) :=
  ⟨update_dt_clamped.1 (1/20) (by norm_num), update_dt_clamped.2 oracle0 landedRuntime⟩

theorem syncHighScore_lander (rt : Runtime) :
    (syncHighScore rt).game.lander = rt.game.lander := by
  unfold syncHighScore
  split <;> rfl

theorem checkLandingCrashed_lander (o : MathOracle) (rt : Runtime) (l : Lander) :
    (checkLandingCrashed o rt l).game.lander = rt.game.lander := by
  unfold checkLandingCrashed
  by_cases h : rt.game.lives - 1 = 0
  · simp only [h, if_true]
    rw [(spawnExplosion_particlesOnly o _ l.x l.y).lander_eq]
    show (syncHighScore _).game.lander = _
    rw [syncHighScore_lander]
  · simp only [h, if_false]
    exact (spawnExplosion_particlesOnly o _ l.x l.y).lander_eq

theorem updateParticles_lander (o : MathOracle) (rt : Runtime) (fs : ℚ) :
    (updateParticles o rt fs).game.lander = rt.game.lander := rfl

theorem updateCamera_lander (o : MathOracle) (rt : Runtime) (fs : ℚ) :
    (updateCamera o rt fs).game.lander = rt.game.lander := by
  unfold updateCamera
  cases h : rt.game.lander with
  | none => exact h
  | some l => exact h

theorem checkLanding_lander_fields (o : MathOracle) (rt : Runtime) (l : Lander)
    (hl : rt.game.lander = some l) :
    ∃ l', (checkLanding o rt).game.lander = some l' ∧
      l'.fuel = l.fuel ∧ l'.thrusting = l.thrusting := by
  unfold checkLanding
  rw [hl]
  cases hcond :
      (decide (getTerrainYAtX rt l.x ≤ l.y + LANDER_SIZE) || footprintIntersectsTerrain o rt l) with
  | false =>
    simp only [hcond, Bool.false_eq_true, if_false]
    exact ⟨l, hl, rfl, rfl⟩
  | true =>
    simp only [hcond, if_true]
    cases hfind : rt.game.landingPads.find? (padMatches l.x (l.y + LANDER_SIZE)) with
    | none =>
      simp only [hfind]
      exact ⟨l, (checkLandingCrashed_lander o rt l).trans hl, rfl, rfl⟩
    | some pad =>
      simp only [hfind]
      cases hsafe : safeLanding l with
      | false =>
        simp only [hsafe, Bool.false_eq_true, if_false]
        exact ⟨l, (checkLandingCrashed_lander o rt l).trans hl, rfl, rfl⟩
      | true =>
        simp only [hsafe, if_true]
        exact ⟨{ l with y := pad.y - LANDER_SIZE, vx := 0, vy := 0, angle := 0 },
          checkLandingLanded_lander o rt l pad, rfl, rfl⟩

/-! ## C6: fuel consumption and thrust gating -/

theorem checkLanding_lander_fuel_map (o : MathOracle) (rt : Runtime) :
    (checkLanding o rt).game.lander.map Lander.fuel = rt.game.lander.map Lander.fuel := by
  unfold checkLanding
  cases hl : rt.game.lander with
  | none => rw [hl]
  | some l =>
    cases hcond :
        (decide (getTerrainYAtX rt l.x ≤ l.y + LANDER_SIZE) ||
          footprintIntersectsTerrain o rt l) with
    | false =>
      simp only [hcond, Bool.false_eq_true, if_false]
      rw [hl]
    | true =>
      simp only [hcond, if_true]
      cases hfind : rt.game.landingPads.find? (padMatches l.x (l.y + LANDER_SIZE)) with
      | none =>
        simp only [hfind]
        rw [checkLandingCrashed_lander, hl]
      | some pad =>
        simp only [hfind]
        cases hsafe : safeLanding l with
        | false =>
          simp only [hsafe, Bool.false_eq_true, if_false]
          rw [checkLandingCrashed_lander, hl]
        | true =>
          simp only [hsafe, if_true]
          rw [checkLandingLanded_lander]
          rfl

theorem checkLanding_lander_thrusting_map (o : MathOracle) (rt : Runtime) :
    (checkLanding o rt).game.lander.map Lander.thrusting =
      rt.game.lander.map Lander.thrusting := by
  unfold checkLanding
  cases hl : rt.game.lander with
  | none => rw [hl]
  | some l =>
    cases hcond :
        (decide (getTerrainYAtX rt l.x ≤ l.y + LANDER_SIZE) ||
          footprintIntersectsTerrain o rt l) with
    | false =>
      simp only [hcond, Bool.false_eq_true, if_false]
      rw [hl]
    | true =>
      simp only [hcond, if_true]
      cases hfind : rt.game.landingPads.find? (padMatches l.x (l.y + LANDER_SIZE)) with
      | none =>
        simp only [hfind]
        rw [checkLandingCrashed_lander, hl]
      | some pad =>
        simp only [hfind]
        cases hsafe : safeLanding l with
        | false =>
          simp only [hsafe, Bool.false_eq_true, if_false]
          rw [checkLandingCrashed_lander, hl]
        | true =>
          simp only [hsafe, if_true]
          rw [checkLandingLanded_lander]
          rfl

/-- C6: for every tick in playing status, the thrust flag is set exactly
when thrust is requested by input and fuel is positive; while thrusting
the new fuel is max(0, fuel - FUEL_CONSUMPTION_RATE * frameScale) and
otherwise fuel is unchanged; and the resulting fuel value is nonnegative
whenever the incoming fuel is. -/
theorem fuel_update_per_tick (o : MathOracle) (rt : Runtime) (dt : ℚ) (l : Lander)
    (hst : rt.game.status = GameStatus.playing)
    (hl : rt.game.lander = some l) :
    (update o rt dt).game.lander.map Lander.thrusting =
      some ((rt.input.arrowUp || rt.input.keyW || rt.input.touchThrusting) &&
        decide (0 < l.fuel)) ∧
    (update o rt dt).game.lander.map Lander.fuel =
      some (if ((rt.input.arrowUp || rt.input.keyW || rt.input.touchThrusting) &&
            decide (0 < l.fuel)) = true then
          max 0 (l.fuel - FUEL_CONSUMPTION_RATE * (min dt (1/10) * 60))
        else l.fuel) ∧
    (0 ≤ l.fuel →
      0 ≤ (if ((rt.input.arrowUp || rt.input.keyW || rt.input.touchThrusting) &&
            decide (0 < l.fuel)) = true then
          max 0 (l.fuel - FUEL_CONSUMPTION_RATE * (min dt (1/10) * 60))
        else l.fuel)) := by
  refine ⟨?_, ?_, ?_⟩
  · unfold update updateCore
    rw [hst, if_pos rfl, hl]
    simp only []
    rw [show ∀ rt2 : Runtime, (updateParticles o rt2 (min dt (1/10) * 60)).game.lander =
        rt2.game.lander from fun _ => rfl]
    rw [checkLanding_lander_thrusting_map, updateCamera_lander]
    rfl
  · unfold update updateCore
    rw [hst, if_pos rfl, hl]
    simp only []
    rw [show ∀ rt2 : Runtime, (updateParticles o rt2 (min dt (1/10) * 60)).game.lander =
        rt2.game.lander from fun _ => rfl]
    rw [checkLanding_lander_fuel_map, updateCamera_lander]
    rfl
  · intro hnn
    by_cases hthr : ((rt.input.arrowUp || rt.input.keyW || rt.input.touchThrusting) &&
        decide (0 < l.fuel)) = true
    · rw [if_pos hthr]
      exact le_max_left 0 _
    · rw [if_neg hthr]
      exact hnn

/-- Witness for C6: thrust requested with fuel 10 at a 60fps tick. -/
theorem fuel_update_per_tick_witness :
    (update oracle0
        { testRuntime (padLander 0 0 0 10) 1 3 with
          input := { arrowUp := true } } (1/60)).game.lander.map Lander.thrusting =
      some true ∧
    (update oracle0
        { testRuntime (padLander 0 0 0 10) 1 3 with
          input := { arrowUp := true } } (1/60)).game.lander.map Lander.fuel =
      some (max 0 (10 - FUEL_CONSUMPTION_RATE * (min (1/60 : ℚ) (1/10) * 60))) := by
  obtain ⟨h1, h2, _⟩ := fuel_update_per_tick oracle0
    { testRuntime (padLander 0 0 0 10) 1 3 with input := { arrowUp := true } } (1/60)
    (padLander 0 0 0 10) rfl rfl
  constructor
  · rw [h1]
    norm_num [padLander]
  · rw [h2]
    norm_num [padLander]

/-! ## Commit lifecycle lemmas -/

theorem startLevel_status (o : MathOracle) (rt : Runtime) (lvl : ℕ) :
    (startLevel o rt lvl).game.status = GameStatus.playing := rfl

theorem startLevel_score (o : MathOracle) (rt : Runtime) (lvl : ℕ) :
    (startLevel o rt lvl).game.score = rt.game.score := rfl

theorem startLevel_anim (o : MathOracle) (rt : Runtime) (lvl : ℕ) :
    (startLevel o rt lvl).game.landingScoreAnimation = none := rfl

theorem startLevel_level (o : MathOracle) (rt : Runtime) (lvl : ℕ) :
    (startLevel o rt lvl).game.level = lvl := rfl

theorem startLevel_highScore (o : MathOracle) (rt : Runtime) (lvl : ℕ) :
    (startLevel o rt lvl).game.highScore = rt.game.highScore := rfl

theorem beginTitle_status (o : MathOracle) (rt : Runtime) :
    (beginTitle o rt).game.status = GameStatus.title := rfl

theorem beginTitle_score (o : MathOracle) (rt : Runtime) :
    (beginTitle o rt).game.score = 0 := rfl

theorem beginTitle_level (o : MathOracle) (rt : Runtime) :
    (beginTitle o rt).game.level = 1 := rfl

theorem beginTitle_anim (o : MathOracle) (rt : Runtime) :
    (beginTitle o rt).game.landingScoreAnimation = none := rfl

theorem beginTitle_highScore (o : MathOracle) (rt : Runtime) :
    (beginTitle o rt).game.highScore = rt.game.highScore := rfl

theorem commitLandingAwardIfPending_of_none (rt : Runtime)
    (ha : rt.game.landingScoreAnimation = none) :
    commitLandingAwardIfPending rt = rt := by
  unfold commitLandingAwardIfPending
  simp only [ha]

theorem commitLandingAwardIfPending_of_committed (rt : Runtime) (a : LandingScoreAnimation)
    (ha : rt.game.landingScoreAnimation = some a) (hc : a.committed = true) :
    commitLandingAwardIfPending rt = rt := by
  unfold commitLandingAwardIfPending
  simp only [ha, hc, eq_self_iff_true, if_true]

theorem commit_uncommitted_score (rt : Runtime) (a : LandingScoreAnimation)
    (ha : rt.game.landingScoreAnimation = some a) (hc : a.committed = false) :
    (commitLandingAwardIfPending rt).game.score = rt.game.score + a.finalAward := by
  unfold commitLandingAwardIfPending
  simp only [ha, hc, Bool.false_eq_true, if_false]
  rw [show ∀ rt2 : Runtime, (syncHighScore rt2).game.score = rt2.game.score from
    syncHighScore_score]

theorem commit_uncommitted_anim (rt : Runtime) (a : LandingScoreAnimation)
    (ha : rt.game.landingScoreAnimation = some a) (hc : a.committed = false) :
    (commitLandingAwardIfPending rt).game.landingScoreAnimation =
      some { a with committed := true, displayedAward := a.finalAward } := by
  unfold commitLandingAwardIfPending
  simp only [ha, hc, Bool.false_eq_true, if_false]

theorem commit_uncommitted_status (rt : Runtime) (a : LandingScoreAnimation)
    (ha : rt.game.landingScoreAnimation = some a) (hc : a.committed = false) :
    (commitLandingAwardIfPending rt).game.status = rt.game.status := by
  unfold commitLandingAwardIfPending
  simp only [ha, hc, Bool.false_eq_true, if_false]
  rw [show ∀ rt2 : Runtime, (syncHighScore rt2).game.status = rt2.game.status from
    syncHighScore_status]

theorem commit_uncommitted_level (rt : Runtime) (a : LandingScoreAnimation)
    (ha : rt.game.landingScoreAnimation = some a) (hc : a.committed = false) :
    (commitLandingAwardIfPending rt).game.level = rt.game.level := by
  unfold commitLandingAwardIfPending
  simp only [ha, hc, Bool.false_eq_true, if_false]
  rw [show ∀ rt2 : Runtime, (syncHighScore rt2).game.level = rt2.game.level from
    syncHighScore_level]

theorem handleSpaceKeyDown_of_landed (o : MathOracle) (rt : Runtime)
    (hst : rt.game.status = GameStatus.landed) :
    handleSpaceKeyDown o rt =
      startLevel o (commitLandingAwardIfPending rt) (rt.game.level + 1) := by
  unfold handleSpaceKeyDown
  simp [hst, startLevel_status]

theorem handleSpaceKeyDown_of_playing (o : MathOracle) (rt : Runtime)
    (hst : rt.game.status = GameStatus.playing) :
    handleSpaceKeyDown o rt = rt := by
  unfold handleSpaceKeyDown
  simp [hst]

/-! ## C3: the award is committed exactly once -/

theorem landingAwardInv_tick (S F : ℤ) (rt : Runtime) (dt : ℚ) (hdt : 0 ≤ dt)
    (h : landingAwardInv S F rt) :
    landingAwardInv S F (updateLandingScoreAnimation rt dt) := by
  have hdt1000 : 0 ≤ dt * 1000 := mul_nonneg hdt (by norm_num)
  rcases h with ⟨hst, a, ha, hF, hdur, hcase⟩ | ⟨hst, ha, hsc⟩
  · unfold updateLandingScoreAnimation
    rw [if_pos hst]
    simp only [ha, hdur]
    have h12 : (if (0:ℚ) < 1200 then (1200:ℚ) else 1200) = 1200 := by norm_num
    rw [h12]
    rcases hcase with ⟨hc, hS⟩ | ⟨hc, hS, hD, hE⟩
    · by_cases hcm : (1200 : ℚ) ≤ min 1200 (a.elapsedMs + dt * 1000)
      · rw [if_pos hcm]
        have hmin : min (1200:ℚ) (a.elapsedMs + dt * 1000) = 1200 :=
          le_antisymm (min_le_left _ _) hcm
        unfold commitLandingAwardIfPending
        simp only [hc, Bool.false_eq_true, if_false]
        refine Or.inl ⟨?_, _, rfl, hF, rfl, Or.inr ⟨rfl, ?_, hF, hmin⟩⟩
        · show (syncHighScore _).game.status = GameStatus.landed
          rw [syncHighScore_status]
          exact hst
        · show (syncHighScore _).game.score = S + F
          rw [syncHighScore_score]
          show rt.game.score + a.finalAward = S + F
          rw [hS, hF]
      · rw [if_neg hcm]
        exact Or.inl ⟨hst, _, rfl, hF, rfl, Or.inl ⟨hc, hS⟩⟩
    · have hcm : (1200 : ℚ) ≤ min 1200 (a.elapsedMs + dt * 1000) := by
        rw [hE]
        exact le_min (le_refl _) (by linarith)
      rw [if_pos hcm]
      have hmin : min (1200:ℚ) (a.elapsedMs + dt * 1000) = 1200 :=
        le_antisymm (min_le_left _ _) hcm
      unfold commitLandingAwardIfPending
      simp only [hc, eq_self_iff_true, if_true]
      refine Or.inl ⟨hst, _, rfl, hF, rfl, Or.inr ⟨rfl, hS, ?_, hmin⟩⟩
      show jsRound ((a.finalAward : ℚ) *
        (1 - (1 - min 1 (min 1200 (a.elapsedMs + dt * 1000) / 1200)) ^ 3)) = F
      rw [hmin]
      norm_num
      rw [jsRound_intCast]
      exact hF
  · unfold updateLandingScoreAnimation
    rw [if_neg (by rw [hst]; simp)]
    exact Or.inr ⟨hst, ha, hsc⟩

theorem landingAwardInv_advance (o : MathOracle) (S F : ℤ) (rt : Runtime)
    (h : landingAwardInv S F rt) :
    landingAwardInv S F (handleSpaceKeyDown o rt) := by
  rcases h with ⟨hst, a, ha, hF, hdur, hcase⟩ | ⟨hst, ha, hsc⟩
  · right
    rw [handleSpaceKeyDown_of_landed o rt hst]
    refine ⟨startLevel_status o _ _, startLevel_anim o _ _, ?_⟩
    rw [startLevel_score]
    rcases hcase with ⟨hc, hS⟩ | ⟨hc, hS, _, _⟩
    · rw [commit_uncommitted_score rt a ha hc, hS, hF]
    · rw [commitLandingAwardIfPending_of_committed rt a ha hc]
      exact hS
  · right
    rw [handleSpaceKeyDown_of_playing o rt hst]
    exact ⟨hst, ha, hsc⟩

theorem landingAwardInv_step (o : MathOracle) (S F : ℤ) (rt : Runtime) (ev : ScoreEvent)
    (hdt : ∀ dt, ev = ScoreEvent.tick dt → 0 ≤ dt)
    (h : landingAwardInv S F rt) :
    landingAwardInv S F (scoreStep o rt ev) := by
  cases ev with
  | tick dt => exact landingAwardInv_tick S F rt dt (hdt dt rfl) h
  | advance => exact landingAwardInv_advance o S F rt h

theorem runScoreEvents_inv (o : MathOracle) (S F : ℤ) :
    ∀ (evs : List ScoreEvent) (rt : Runtime), landingAwardInv S F rt →
      (∀ dt, ScoreEvent.tick dt ∈ evs → 0 ≤ dt) →
      landingAwardInv S F (runScoreEvents o evs rt) := by
  intro evs
  induction evs with
  | nil =>
    intro rt h _
    exact h
  | cons ev rest ih =>
    intro rt h hdt
    show landingAwardInv S F (runScoreEvents o rest (scoreStep o rt ev))
    refine ih _ (landingAwardInv_step o S F rt ev ?_ h) ?_
    · intro dt hev
      exact hdt dt (by rw [hev]; exact List.mem_cons_self _ _)
    · intro dt hmem
      exact hdt dt (List.mem_cons_of_mem _ hmem)

/-- C3: for every landing, the final award is added to the permanent
score exactly once. Conjunct 1: through any sequence of frame ticks and
lifecycle advance events the lifecycle invariant holds (score equals its
pre-landing value until the animation commits, equals exactly the
pre-landing value plus the final award once committed or once advanced,
and once committed the displayed award is pinned to the final award and
no further event changes the score). Conjunct 2: an advance event forces
an immediate commit before the next level starts. Conjunct 3: a tick
that exhausts the duration commits with displayedAward = finalAward. -/
theorem landing_award_committed_exactly_once (o : MathOracle) (S F : ℤ) (rt : Runtime)
    (a : LandingScoreAnimation)
    (hst : rt.game.status = GameStatus.landed)
    (ha : rt.game.landingScoreAnimation = some a)
    (hc : a.committed = false)
    (hF : a.finalAward = F)
    (hdur : a.durationMs = 1200)
    (hE : a.elapsedMs = 0)
    (hS : rt.game.score = S) :
    (∀ evs : List ScoreEvent, (∀ dt, ScoreEvent.tick dt ∈ evs → 0 ≤ dt) →
      landingAwardInv S F (runScoreEvents o evs rt)) ∧
    ((handleSpaceKeyDown o rt).game.score = S + F ∧
      (handleSpaceKeyDown o rt).game.status = GameStatus.playing ∧
      (handleSpaceKeyDown o rt).game.landingScoreAnimation = none) ∧
    (∀ dt : ℚ, 0 ≤ dt → 1200 ≤ dt * 1000 →
      ∃ a', (updateLandingScoreAnimation rt dt).game.landingScoreAnimation = some a' ∧
        a'.committed = true ∧ a'.displayedAward = F ∧
        (updateLandingScoreAnimation rt dt).game.score = S + F) := by
  have hinv0 : landingAwardInv S F rt :=
    Or.inl ⟨hst, a, ha, hF, hdur, Or.inl ⟨hc, hS⟩⟩
  refine ⟨fun evs hdt => runScoreEvents_inv o S F evs rt hinv0 hdt, ⟨?_, ?_, ?_⟩, ?_⟩
  · rw [handleSpaceKeyDown_of_landed o rt hst, startLevel_score,
      commit_uncommitted_score rt a ha hc, hS, hF]
  · rw [handleSpaceKeyDown_of_landed o rt hst]
    exact startLevel_status o _ _
  · rw [handleSpaceKeyDown_of_landed o rt hst]
    exact startLevel_anim o _ _
  · intro dt h0 hbig
    unfold updateLandingScoreAnimation
    rw [if_pos hst]
    simp only [ha, hdur]
    have h12 : (if (0:ℚ) < 1200 then (1200:ℚ) else 1200) = 1200 := by norm_num
    rw [h12]
    have hcm : (1200 : ℚ) ≤ min 1200 (a.elapsedMs + dt * 1000) := by
      rw [hE]
      exact le_min (le_refl _) (by linarith)
    rw [if_pos hcm]
    unfold commitLandingAwardIfPending
    simp only [hc, Bool.false_eq_true, if_false]
    refine ⟨_, rfl, rfl, hF, ?_⟩
    show (syncHighScore _).game.score = S + F
    rw [syncHighScore_score]
    show rt.game.score + a.finalAward = S + F
    rw [hS, hF]

/-- Witness for C3 at the concrete landed fixture with final award 150,
running one 60fps tick followed by an advance event. -/
theorem landing_award_committed_exactly_once_witness :
    landingAwardInv 0 150
        (runScoreEvents oracle0 [ScoreEvent.tick (1/60), ScoreEvent.advance] landedRuntime) ∧
    (handleSpaceKeyDown oracle0 landedRuntime).game.score = 0 + 150 := by
  have h := landing_award_committed_exactly_once oracle0 0 150 landedRuntime animGentle
    rfl rfl rfl rfl rfl rfl rfl
  refine ⟨h.1 [ScoreEvent.tick (1/60), ScoreEvent.advance] ?_, h.2.1.1⟩
  intro dt hmem
  simp only [List.mem_cons, List.mem_singleton] at hmem
  rcases hmem with h1 | h1 | h1
  · cases h1
    norm_num
  · cases h1
  · cases h1

/-! ## C10: the high score dominates the score in every reachable state -/

theorem syncHighScore_score_le_of (rt2 : Runtime) (s : ℤ) (hs : rt2.game.score = s) :
    s ≤ (syncHighScore rt2).game.highScore := by
  calc s = rt2.game.score := hs.symm
    _ = (syncHighScore rt2).game.score := (syncHighScore_score rt2).symm
    _ ≤ (syncHighScore rt2).game.highScore := syncHighScore_score_le rt2

theorem scoreInv_of_eqs (rt rt' : Runtime)
    (hs : rt'.game.score = rt.game.score)
    (hh : rt'.game.highScore = rt.game.highScore)
    (hl : rt'.game.level = rt.game.level)
    (han : rt'.game.landingScoreAnimation = rt.game.landingScoreAnimation)
    (h : ScoreInv rt) : ScoreInv rt' := by
  unfold ScoreInv at h ⊢
  rw [hs, hh, hl, han]
  exact h

theorem landingAwardAnimation_finalAward_nonneg (rt : Runtime) (angle : ℚ)
    (hang : |angle| ≤ MAX_SAFE_ANGLE) :
    0 ≤ (landingAwardAnimation rt angle).finalAward := by
  unfold landingAwardAnimation getTrackedPeakAbsVerticalSpeed
  simp only []
  have hpeak : (0:ℚ) ≤ max 0 rt.peakAbsVy := le_max_left _ _
  have hv : (0:ℤ) ≤ ⌊max 0 rt.peakAbsVy / MAX_SAFE_VY * 50⌋ := by
    refine Int.floor_nonneg.mpr ?_
    have : (0:ℚ) < MAX_SAFE_VY := by norm_num [MAX_SAFE_VY]
    positivity
  have ha : (0:ℤ) ≤ ⌊(1 - |angle| / MAX_SAFE_ANGLE) * 50⌋ := by
    refine Int.floor_nonneg.mpr ?_
    have hdiv : |angle| / MAX_SAFE_ANGLE ≤ 1 := by
      rw [div_le_one (by norm_num [MAX_SAFE_ANGLE])]
      exact hang
    nlinarith
  have hlev : (0:ℤ) ≤ (rt.game.level : ℤ) * 100 := by positivity
  have hbase : (0:ℤ) ≤ (rt.game.level : ℤ) * 100 + ⌊max 0 rt.peakAbsVy / MAX_SAFE_VY * 50⌋ +
      ⌊(1 - |angle| / MAX_SAFE_ANGLE) * 50⌋ := by omega
  have hmult : (0:ℚ) ≤ max 1 ((⌊(if 0 < MAX_SAFE_VY then max 0 rt.peakAbsVy / MAX_SAFE_VY
      else 0) * 2⌋ : ℚ) / 2) := le_trans (by norm_num) (le_max_left _ _)
  refine Int.floor_nonneg.mpr ?_
  have hbq : (0:ℚ) ≤ ((rt.game.level : ℤ) * 100 + ⌊max 0 rt.peakAbsVy / MAX_SAFE_VY * 50⌋ +
      ⌊(1 - |angle| / MAX_SAFE_ANGLE) * 50⌋ : ℤ) := by exact_mod_cast hbase
  nlinarith [mul_nonneg hbq hmult]

theorem checkLandingLanded_scoreInv (o : MathOracle) (rt : Runtime) (l : Lander)
    (pad : LandingPad) (hang : |l.angle| ≤ MAX_SAFE_ANGLE) (h : ScoreInv rt) :
    ScoreInv (checkLandingLanded o rt l pad) := by
  obtain ⟨h1, h2, h3, _⟩ := h
  refine ⟨?_, ?_, ?_, ?_⟩
  · rw [checkLandingLanded_score]
    exact h1
  · rw [checkLandingLanded_score, checkLandingLanded_highScore]
    exact h2
  · rw [checkLandingLanded_level]
    exact h3
  · intro b hb
    rw [checkLandingLanded_anim] at hb
    cases hb
    exact landingAwardAnimation_finalAward_nonneg rt l.angle hang

theorem checkLandingCrashed_level (o : MathOracle) (rt : Runtime) (l : Lander) :
    (checkLandingCrashed o rt l).game.level = rt.game.level := by
  unfold checkLandingCrashed
  by_cases h : rt.game.lives - 1 = 0
  · simp only [h, if_true]
    rw [(spawnExplosion_particlesOnly o _ l.x l.y).level_eq]
    show (syncHighScore _).game.level = _
    rw [syncHighScore_level]
  · simp only [h, if_false]
    exact (spawnExplosion_particlesOnly o _ l.x l.y).level_eq

theorem checkLandingCrashed_anim (o : MathOracle) (rt : Runtime) (l : Lander) :
    (checkLandingCrashed o rt l).game.landingScoreAnimation =
      rt.game.landingScoreAnimation := by
  unfold checkLandingCrashed
  by_cases h : rt.game.lives - 1 = 0
  · simp only [h, if_true]
    rw [(spawnExplosion_particlesOnly o _ l.x l.y).landingScoreAnimation_eq]
    show (syncHighScore _).game.landingScoreAnimation = _
    rw [syncHighScore_anim]
  · simp only [h, if_false]
    exact (spawnExplosion_particlesOnly o _ l.x l.y).landingScoreAnimation_eq

theorem checkLandingCrashed_scoreInv (o : MathOracle) (rt : Runtime) (l : Lander)
    (h : ScoreInv rt) : ScoreInv (checkLandingCrashed o rt l) := by
  obtain ⟨h1, h2, h3, h4⟩ := h
  refine ⟨?_, ?_, ?_, ?_⟩
  · rw [checkLandingCrashed_score]
    exact h1
  · rw [checkLandingCrashed_score]
    unfold checkLandingCrashed
    by_cases hz : rt.game.lives - 1 = 0
    · simp only [hz, if_true]
      rw [(spawnExplosion_particlesOnly o _ l.x l.y).highScore_eq]
      show rt.game.score ≤ (syncHighScore _).game.highScore
      exact syncHighScore_score_le_of _ _ rfl
    · simp only [hz, if_false]
      rw [(spawnExplosion_particlesOnly o _ l.x l.y).highScore_eq]
      exact h2
  · rw [checkLandingCrashed_level]
    exact h3
  · intro b hb
    rw [checkLandingCrashed_anim] at hb
    exact h4 b hb

theorem checkLanding_scoreInv (o : MathOracle) (rt : Runtime) (h : ScoreInv rt) :
    ScoreInv (checkLanding o rt) := by
  unfold checkLanding
  cases hl : rt.game.lander with
  | none => exact h
  | some l =>
    cases hcond :
        (decide (getTerrainYAtX rt l.x ≤ l.y + LANDER_SIZE) ||
          footprintIntersectsTerrain o rt l) with
    | false =>
      simp only [hcond, Bool.false_eq_true, if_false]
      exact h
    | true =>
      simp only [hcond, if_true]
      cases hfind : rt.game.landingPads.find? (padMatches l.x (l.y + LANDER_SIZE)) with
      | none =>
        simp only [hfind]
        exact checkLandingCrashed_scoreInv o rt l h
      | some pad =>
        simp only [hfind]
        cases hsafe : safeLanding l with
        | false =>
          simp only [hsafe, Bool.false_eq_true, if_false]
          exact checkLandingCrashed_scoreInv o rt l h
        | true =>
          simp only [hsafe, if_true]
          exact checkLandingLanded_scoreInv o rt l pad
            ((safeLanding_iff l).mp hsafe).2.2 h

theorem updateCamera_scoreInv (o : MathOracle) (rt : Runtime) (fs : ℚ) (h : ScoreInv rt) :
    ScoreInv (updateCamera o rt fs) := by
  unfold updateCamera
  cases hl : rt.game.lander with
  | none => exact h
  | some l => exact scoreInv_of_eqs rt _ rfl rfl rfl rfl h

theorem updateParticles_scoreInv (o : MathOracle) (rt : Runtime) (fs : ℚ) (h : ScoreInv rt) :
    ScoreInv (updateParticles o rt fs) :=
  scoreInv_of_eqs rt _ rfl rfl rfl rfl h

theorem update_scoreInv (o : MathOracle) (rt : Runtime) (dt : ℚ) (h : ScoreInv rt) :
    ScoreInv (update o rt dt) := by
  unfold update updateCore
  by_cases hst : rt.game.status = GameStatus.playing
  · rw [if_pos hst]
    cases hl : rt.game.lander with
    | none => exact h
    | some l =>
      refine updateParticles_scoreInv o _ _ (checkLanding_scoreInv o _
        (updateCamera_scoreInv o _ _ ?_))
      by_cases hthr : ((rt.input.arrowUp || rt.input.keyW || rt.input.touchThrusting) &&
          decide (0 < l.fuel)) = true
      · refine scoreInv_of_eqs rt _ ?_ ?_ ?_ ?_ h
        · simp only [hthr, eq_self_iff_true, if_true]
          exact (spawnThrustParticles_particlesOnly o _ _ _ _).score_eq
        · simp only [hthr, eq_self_iff_true, if_true]
          exact (spawnThrustParticles_particlesOnly o _ _ _ _).highScore_eq
        · simp only [hthr, eq_self_iff_true, if_true]
          exact (spawnThrustParticles_particlesOnly o _ _ _ _).level_eq
        · simp only [hthr, eq_self_iff_true, if_true]
          exact (spawnThrustParticles_particlesOnly o _ _ _ _).landingScoreAnimation_eq
      · have hfalse : ((rt.input.arrowUp || rt.input.keyW || rt.input.touchThrusting) &&
            decide (0 < l.fuel)) = false := by
          cases hb : ((rt.input.arrowUp || rt.input.keyW || rt.input.touchThrusting) &&
            decide (0 < l.fuel))
          · rfl
          · exact absurd hb hthr
        refine scoreInv_of_eqs rt _ ?_ ?_ ?_ ?_ h <;>
          simp only [hfalse, Bool.false_eq_true, if_false]
  · rw [if_neg hst]
    exact updateParticles_scoreInv o _ _ (scoreInv_of_eqs rt _ rfl rfl rfl rfl h)

theorem updateLandingScoreAnimation_scoreInv (rt : Runtime) (dt : ℚ) (h : ScoreInv rt) :
    ScoreInv (updateLandingScoreAnimation rt dt) := by
  unfold updateLandingScoreAnimation
  by_cases hst : rt.game.status = GameStatus.landed
  · rw [if_pos hst]
    cases ha : rt.game.landingScoreAnimation with
    | none => exact h
    | some a =>
      have hFnn : 0 ≤ a.finalAward := h.2.2.2 a ha
      simp only []
      set D : ℚ := if 0 < a.durationMs then a.durationMs else 1200 with hD
      by_cases hcm : D ≤ min D (a.elapsedMs + dt * 1000)
      · rw [if_pos hcm]
        unfold commitLandingAwardIfPending
        by_cases hcb : a.committed = true
        · simp only [hcb, eq_self_iff_true, if_true]
          refine ⟨h.1, h.2.1, h.2.2.1, ?_⟩
          intro b hb
          cases hb
          exact hFnn
        · have hcf : a.committed = false := by
            cases hb : a.committed
            · rfl
            · exact absurd hb hcb
          simp only [hcf, Bool.false_eq_true, if_false]
          refine ⟨?_, ?_, ?_, ?_⟩
          · show (0:ℤ) ≤ (syncHighScore _).game.score
            rw [syncHighScore_score]
            show (0:ℤ) ≤ rt.game.score + a.finalAward
            have h1 := h.1
            omega
          · show (syncHighScore _).game.score ≤ (syncHighScore _).game.highScore
            exact syncHighScore_score_le _
          · show 1 ≤ (syncHighScore _).game.level
            rw [syncHighScore_level]
            exact h.2.2.1
          · intro b hb
            cases hb
            exact hFnn
      · rw [if_neg hcm]
        refine ⟨h.1, h.2.1, h.2.2.1, ?_⟩
        intro b hb
        cases hb
        exact hFnn
  · rw [if_neg hst]
    exact h

theorem commitLandingAwardIfPending_scoreInv (rt : Runtime) (h : ScoreInv rt) :
    ScoreInv (commitLandingAwardIfPending rt) := by
  unfold commitLandingAwardIfPending
  cases ha : rt.game.landingScoreAnimation with
  | none => exact h
  | some a =>
    have hFnn : 0 ≤ a.finalAward := h.2.2.2 a ha
    by_cases hcb : a.committed = true
    · simp only [hcb, eq_self_iff_true, if_true]
      exact h
    · have hcf : a.committed = false := by
        cases hb : a.committed
        · rfl
        · exact absurd hb hcb
      simp only [hcf, Bool.false_eq_true, if_false]
      refine ⟨?_, ?_, ?_, ?_⟩
      · show (0:ℤ) ≤ (syncHighScore _).game.score
        rw [syncHighScore_score]
        show (0:ℤ) ≤ rt.game.score + a.finalAward
        have h1 := h.1
        omega
      · show (syncHighScore _).game.score ≤ (syncHighScore _).game.highScore
        exact syncHighScore_score_le _
      · show 1 ≤ (syncHighScore _).game.level
        rw [syncHighScore_level]
        exact h.2.2.1
      · intro b hb
        cases hb
        exact hFnn

theorem startLevel_scoreInv (o : MathOracle) (rt : Runtime) (lvl : ℕ) (hlvl : 1 ≤ lvl)
    (h : ScoreInv rt) : ScoreInv (startLevel o rt lvl) := by
  refine ⟨h.1, h.2.1, ?_, ?_⟩
  · rw [startLevel_level]
    exact hlvl
  · intro b hb
    rw [startLevel_anim] at hb
    cases hb

theorem beginTitle_scoreInv (o : MathOracle) (rt : Runtime) (h : ScoreInv rt) :
    ScoreInv (beginTitle o rt) := by
  refine ⟨le_refl 0, ?_, le_refl 1, ?_⟩
  · show (0:ℤ) ≤ rt.game.highScore
    exact le_trans h.1 h.2.1
  · intro b hb
    rw [beginTitle_anim] at hb
    cases hb

theorem handleNameEntrySpace_scoreInv (rt : Runtime) (h : ScoreInv rt) :
    ScoreInv (handleNameEntrySpace rt) := by
  unfold handleNameEntrySpace submitScore
  by_cases hs : rt.leaderboard.nameSubmitting = true
  · simp only [hs, eq_self_iff_true, if_true]
    exact h
  · have hsf : rt.leaderboard.nameSubmitting = false := by
      cases hb : rt.leaderboard.nameSubmitting
      · rfl
      · exact absurd hb hs
    simp only [hsf, Bool.false_eq_true, if_false]
    by_cases hsc : 0 < rt.game.score
    · rw [if_pos hsc]
      exact scoreInv_of_eqs rt _ rfl rfl rfl rfl h
    · rw [if_neg hsc]
      exact scoreInv_of_eqs rt _ rfl rfl rfl rfl h

theorem handleSpaceKeyDown_of_title (o : MathOracle) (rt : Runtime)
    (hst : rt.game.status = GameStatus.title) :
    handleSpaceKeyDown o rt =
      startLevel o { rt with game := { rt.game with lives := STARTING_LIVES, score := 0 } }
        1 := by
  unfold handleSpaceKeyDown
  simp [hst, startLevel_status]

theorem handleSpaceKeyDown_of_crashed (o : MathOracle) (rt : Runtime)
    (hst : rt.game.status = GameStatus.crashed) :
    handleSpaceKeyDown o rt = startLevel o rt rt.game.level := by
  unfold handleSpaceKeyDown
  simp [hst, startLevel_status]

theorem handleSpaceKeyDown_of_gameOver (o : MathOracle) (rt : Runtime)
    (hst : rt.game.status = GameStatus.gameOver) :
    handleSpaceKeyDown o rt = beginTitle o rt := by
  unfold handleSpaceKeyDown
  simp [hst, beginTitle_status]

theorem handleSpaceKeyDown_of_leaderboard (o : MathOracle) (rt : Runtime)
    (hst : rt.game.status = GameStatus.leaderboard) :
    handleSpaceKeyDown o rt = beginTitle o rt := by
  unfold handleSpaceKeyDown
  simp [hst, beginTitle_status]

theorem handleSpaceKeyDown_of_enterName (o : MathOracle) (rt : Runtime)
    (hst : rt.game.status = GameStatus.enterName) :
    handleSpaceKeyDown o rt =
      (if (handleNameEntrySpace rt).game.status = GameStatus.leaderboard then
        beginTitle o (handleNameEntrySpace rt)
      else handleNameEntrySpace rt) := by
  unfold handleSpaceKeyDown
  simp [hst]

theorem handleSpaceKeyDown_scoreInv (o : MathOracle) (rt : Runtime) (h : ScoreInv rt) :
    ScoreInv (handleSpaceKeyDown o rt) := by
  cases hst : rt.game.status with
  | title =>
    rw [handleSpaceKeyDown_of_title o rt hst]
    refine startLevel_scoreInv o _ 1 (le_refl 1) ⟨le_refl 0, ?_, h.2.2.1, h.2.2.2⟩
    show (0:ℤ) ≤ rt.game.highScore
    exact le_trans h.1 h.2.1
  | playing =>
    rw [handleSpaceKeyDown_of_playing o rt hst]
    exact h
  | landed =>
    rw [handleSpaceKeyDown_of_landed o rt hst]
    exact startLevel_scoreInv o _ _ (Nat.succ_le_succ (Nat.zero_le _))
      (commitLandingAwardIfPending_scoreInv rt h)
  | crashed =>
    rw [handleSpaceKeyDown_of_crashed o rt hst]
    exact startLevel_scoreInv o _ _ h.2.2.1 h
  | gameOver =>
    rw [handleSpaceKeyDown_of_gameOver o rt hst]
    exact beginTitle_scoreInv o rt h
  | enterName =>
    rw [handleSpaceKeyDown_of_enterName o rt hst]
    by_cases hlb : (handleNameEntrySpace rt).game.status = GameStatus.leaderboard
    · rw [if_pos hlb]
      exact beginTitle_scoreInv o _ (handleNameEntrySpace_scoreInv rt h)
    · rw [if_neg hlb]
      exact handleNameEntrySpace_scoreInv rt h
  | leaderboard =>
    rw [handleSpaceKeyDown_of_leaderboard o rt hst]
    exact beginTitle_scoreInv o rt h

theorem scoreInv_init (w h : ℚ) (stored : Option ℤ) :
    ScoreInv (createRuntime w h stored) := by
  refine ⟨le_refl 0, ?_, le_refl 1, ?_⟩
  · show (0:ℤ) ≤ loadHighScore stored
    unfold loadHighScore
    cases stored with
    | none => exact le_refl 0
    | some v =>
      show (0:ℤ) ≤ if v < 0 then 0 else v
      by_cases hv : v < 0
      · rw [if_pos hv]
      · rw [if_neg hv]
        omega
  · intro b hb
    cases hb

theorem sessionStep_scoreInv (rt rt' : Runtime) (hstep : SessionStep rt rt')
    (h : ScoreInv rt) : ScoreInv rt' := by
  cases hstep with
  | tick o dt _ => exact update_scoreInv o rt dt h
  | animTick dt _ => exact updateLandingScoreAnimation_scoreInv rt dt h
  | spaceKey o _ => exact handleSpaceKeyDown_scoreInv o rt h

/-- C10: in every reachable state the high score dominates the score.
The initial state satisfies it (the loaded high score is clamped at 0 and
the score starts at 0), the permanent score only increases inside the
landing-award commit, which immediately syncs the high score, the
lives-reaching-zero crash path also syncs it, and every reset path sets
the score back to 0 without lowering the high score. -/
theorem highScore_ge_score_reachable (w h : ℚ) (stored : Option ℤ) (rt : Runtime)
    (hreach : SessionReachable (createRuntime w h stored) rt) :
    rt.game.score ≤ rt.game.highScore := by
  have hreach' : Relation.ReflTransGen SessionStep (createRuntime w h stored) rt := hreach
  clear hreach
  have hinv : ScoreInv rt := by
    induction hreach' with
    | refl => exact scoreInv_init w h stored
    | tail _ hstep ih => exact sessionStep_scoreInv _ _ hstep ih
  exact hinv.2.1

/-- Witness for C10 at the initial state itself. -/
theorem highScore_ge_score_reachable_witness :
    (createRuntime 300 200 (some 5)).game.score ≤
      (createRuntime 300 200 (some 5)).game.highScore :=
  highScore_ge_score_reachable 300 200 (some 5) (createRuntime 300 200 (some 5))
    Relation.ReflTransGen.refl

/-! ## C9: the sustained exhaust particle cap -/

theorem countP_congr_fun (p q : Particle → Bool) (l : List Particle)
    (h : ∀ a ∈ l, p a = q a) : l.countP p = l.countP q := by
  induction l with
  | nil => rfl
  | cons a t ih =>
    rw [List.countP_cons, List.countP_cons, ih (fun b hb => h b (List.mem_cons_of_mem a hb)),
      h a (List.mem_cons_self a t)]

theorem countSustained_pushParticle (rt : Runtime) (p : Particle) :
    countSustainedExhaustParticles (pushParticle rt p) =
      countSustainedExhaustParticles rt +
        (if isSustainedExhaustParticleKind p.kind then 1 else 0) := by
  unfold countSustainedExhaustParticles pushParticle
  rw [List.countP_append]
  simp [List.countP_cons]

theorem spawnThrustLoop_countSustained (o : MathOracle) (x y a : ℚ) :
    ∀ (i b : ℕ) (rt : Runtime),
      countSustainedExhaustParticles rt + b ≤ MAX_SUSTAINED_EXHAUST_PARTICLES →
      countSustainedExhaustParticles (spawnThrustLoop o x y a i b rt) ≤
        MAX_SUSTAINED_EXHAUST_PARTICLES := by
  intro i
  induction i with
  | zero =>
    intro b rt h
    rw [spawnThrustLoop]
    omega
  | succ i ih =>
    intro b rt h
    cases b with
    | zero =>
      rw [spawnThrustLoop]
      omega
    | succ b =>
      rw [spawnThrustLoop]
      refine ih b _ ?_
      rw [countSustained_pushParticle]
      have hsust :
          isSustainedExhaustParticleKind (some ParticleKind.flame) = true := rfl
      simp only [hsust, if_true]
      have hcursor :
          countSustainedExhaustParticles
              (nextRand o (nextRand o (nextRand o (nextRand o rt).2).2).2).2 =
            countSustainedExhaustParticles rt := rfl
      omega

theorem spawnThrustParticles_countSustained (o : MathOracle) (rt : Runtime) (x y a : ℚ)
    (h : countSustainedExhaustParticles rt ≤ MAX_SUSTAINED_EXHAUST_PARTICLES) :
    countSustainedExhaustParticles (spawnThrustParticles o rt x y a) ≤
      MAX_SUSTAINED_EXHAUST_PARTICLES := by
  unfold spawnThrustParticles
  by_cases hz :
    min MAX_EXHAUST_SPAWN_PER_FRAME
      (MAX_SUSTAINED_EXHAUST_PARTICLES - countSustainedExhaustParticles rt) = 0
  · simp only [hz, if_true]
    exact h
  · simp only [hz, if_false]
    refine spawnThrustLoop_countSustained o x y a 2 _ rt ?_
    have hmin :
        min MAX_EXHAUST_SPAWN_PER_FRAME
            (MAX_SUSTAINED_EXHAUST_PARTICLES - countSustainedExhaustParticles rt) ≤
          MAX_SUSTAINED_EXHAUST_PARTICLES - countSustainedExhaustParticles rt :=
      min_le_right _ _
    omega

theorem spawnExplosionLoop_countSustained (o : MathOracle) (x y : ℚ) :
    ∀ (n : ℕ) (rt : Runtime),
      countSustainedExhaustParticles (spawnExplosionLoop o x y n rt) =
        countSustainedExhaustParticles rt := by
  intro n
  induction n with
  | zero =>
    intro rt
    rw [spawnExplosionLoop]
  | succ n ih =>
    intro rt
    rw [spawnExplosionLoop]
    rw [ih, countSustained_pushParticle]
    rfl

theorem spawnLandingLoop_countSustained (o : MathOracle) (x y : ℚ) :
    ∀ (n : ℕ) (rt : Runtime),
      countSustainedExhaustParticles (spawnLandingLoop o x y n rt) =
        countSustainedExhaustParticles rt := by
  intro n
  induction n with
  | zero =>
    intro rt
    rw [spawnLandingLoop]
  | succ n ih =>
    intro rt
    rw [spawnLandingLoop]
    rw [ih, countSustained_pushParticle]
    rfl

theorem stepParticle_sustained (o : MathOracle) (rt : Runtime) (fs : ℚ) (p : Particle) :
    isSustainedExhaustParticleKind (stepParticle o rt fs p).kind =
      isSustainedExhaustParticleKind p.kind := by
  unfold stepParticle
  dsimp only
  split
  · next h => simp [isSustainedExhaustParticleKind, h.2]
  · rfl

theorem updateParticles_countSustained (o : MathOracle) (rt : Runtime) (fs : ℚ) :
    countSustainedExhaustParticles (updateParticles o rt fs) ≤
      countSustainedExhaustParticles rt := by
  unfold updateParticles countSustainedExhaustParticles
  calc ((rt.game.particles.map (stepParticle o rt fs)).filter fun p =>
          decide (0 < p.life)).countP (fun p => isSustainedExhaustParticleKind p.kind)
      ≤ (rt.game.particles.map (stepParticle o rt fs)).countP
          (fun p => isSustainedExhaustParticleKind p.kind) :=
        (List.filter_sublist _).countP_le _
    _ = rt.game.particles.countP
          ((fun p => isSustainedExhaustParticleKind p.kind) ∘ stepParticle o rt fs) :=
        List.countP_map _ _ _
    _ = rt.game.particles.countP (fun p => isSustainedExhaustParticleKind p.kind) :=
        countP_congr_fun _ _ _ (fun a _ => stepParticle_sustained o rt fs a)

theorem syncHighScore_particles (rt : Runtime) :
    (syncHighScore rt).game.particles = rt.game.particles := by
  unfold syncHighScore
  split <;> rfl

theorem checkLandingLanded_countSustained (o : MathOracle) (rt : Runtime) (l : Lander)
    (pad : LandingPad) :
    countSustainedExhaustParticles (checkLandingLanded o rt l pad) =
      countSustainedExhaustParticles rt := by
  unfold checkLandingLanded spawnLandingParticles
  rw [spawnLandingLoop_countSustained]
  rfl

theorem checkLandingCrashed_countSustained (o : MathOracle) (rt : Runtime) (l : Lander) :
    countSustainedExhaustParticles (checkLandingCrashed o rt l) =
      countSustainedExhaustParticles rt := by
  unfold checkLandingCrashed spawnExplosion
  rw [spawnExplosionLoop_countSustained]
  by_cases h : rt.game.lives - 1 = 0
  · simp only [h, if_true]
    unfold countSustainedExhaustParticles
    rw [show ∀ rt2 : Runtime, (syncHighScore rt2).game.particles = rt2.game.particles from
      syncHighScore_particles]
  · simp only [h, if_false]
    rfl

theorem checkLanding_countSustained (o : MathOracle) (rt : Runtime) :
    countSustainedExhaustParticles (checkLanding o rt) =
      countSustainedExhaustParticles rt := by
  unfold checkLanding
  cases hl : rt.game.lander with
  | none => rfl
  | some l =>
    cases hcond :
        (decide (getTerrainYAtX rt l.x ≤ l.y + LANDER_SIZE) ||
          footprintIntersectsTerrain o rt l) with
    | false => simp only [hcond, Bool.false_eq_true, if_false]
    | true =>
      simp only [hcond, if_true]
      cases hfind : rt.game.landingPads.find? (padMatches l.x (l.y + LANDER_SIZE)) with
      | none =>
        simp only [hfind]
        exact checkLandingCrashed_countSustained o rt l
      | some pad =>
        simp only [hfind]
        cases hsafe : safeLanding l with
        | false =>
          simp only [hsafe, Bool.false_eq_true, if_false]
          exact checkLandingCrashed_countSustained o rt l
        | true =>
          simp only [hsafe, if_true]
          exact checkLandingLanded_countSustained o rt l pad

theorem updateCamera_particles (o : MathOracle) (rt : Runtime) (fs : ℚ) :
    (updateCamera o rt fs).game.particles = rt.game.particles := by
  unfold updateCamera
  cases h : rt.game.lander <;> rfl

/-- C9: the number of sustained (flame or dust) exhaust particles never
exceeds 320: every state with at most 320 sustained particles still has
at most 320 after one tick, because each thrust spawn is limited by the
remaining capacity budget and the flame-to-dust conversion in the
particle step does not change the sustained count. -/
theorem sustained_exhaust_cap_preserved (o : MathOracle) (rt : Runtime) (dt : ℚ)
    (h : countSustainedExhaustParticles rt ≤ MAX_SUSTAINED_EXHAUST_PARTICLES) :
    countSustainedExhaustParticles (update o rt dt) ≤ MAX_SUSTAINED_EXHAUST_PARTICLES := by
  unfold update updateCore
  by_cases hst : rt.game.status = GameStatus.playing
  · rw [if_pos hst]
    cases hl : rt.game.lander with
    | none => exact h
    | some l =>
      refine le_trans (updateParticles_countSustained o _ _) ?_
      rw [checkLanding_countSustained]
      unfold countSustainedExhaustParticles
      rw [updateCamera_particles]
      show countSustainedExhaustParticles _ ≤ MAX_SUSTAINED_EXHAUST_PARTICLES
      unfold countSustainedExhaustParticles
      simp only []
      split
      · next hthr =>
        show countSustainedExhaustParticles (spawnThrustParticles o _ _ _ _) ≤
          MAX_SUSTAINED_EXHAUST_PARTICLES
        exact spawnThrustParticles_countSustained o _ _ _ _ h
      · exact h
  · rw [if_neg hst]
    exact le_trans (updateParticles_countSustained o _ _) h

/-- Witness for C9 on a concrete state with no particles. -/
theorem sustained_exhaust_cap_preserved_witness :
    countSustainedExhaustParticles (testRuntime (padLander 0 0 0 100) 1 3) ≤
        MAX_SUSTAINED_EXHAUST_PARTICLES ∧
    countSustainedExhaustParticles
        (update oracle0 (testRuntime (padLander 0 0 0 100) 1 3) (1/60)) ≤
      MAX_SUSTAINED_EXHAUST_PARTICLES := by
  have h0 : countSustainedExhaustParticles (testRuntime (padLander 0 0 0 100) 1 3) ≤
      MAX_SUSTAINED_EXHAUST_PARTICLES := by
    show (0 : ℕ) ≤ 320
    omega
  exact ⟨h0, sustained_exhaust_cap_preserved oracle0 _ (1/60) h0⟩

/-! ## C8: linear interpolation of terrain height -/

theorem pairwise_head_le_get (q : TerrainPoint) (l : List TerrainPoint)
    (h : (q :: l).Pairwise (fun a b => a.x < b.x)) (i : Fin (q :: l).length) :
    q.x ≤ ((q :: l).get i).x := by
  rcases i with ⟨iv, hlt⟩
  cases iv with
  | zero => exact le_refl _
  | succ k =>
    have hmem : (q :: l).get ⟨k + 1, hlt⟩ = l.get ⟨k, Nat.lt_of_succ_lt_succ hlt⟩ := rfl
    rw [hmem]
    exact le_of_lt ((List.pairwise_cons.mp h).1 _ (List.get_mem l k _))

theorem findInterp_of_between :
    ∀ (pts : List TerrainPoint) (j : ℕ) (hj : j + 1 < pts.length) (x : ℚ),
      pts.Pairwise (fun a b => a.x < b.x) →
      (pts.get ⟨j, Nat.lt_of_succ_lt hj⟩).x < x →
      x < (pts.get ⟨j + 1, hj⟩).x →
      findInterp x pts =
        some ((pts.get ⟨j, Nat.lt_of_succ_lt hj⟩).y +
          (x - (pts.get ⟨j, Nat.lt_of_succ_lt hj⟩).x) /
            ((pts.get ⟨j + 1, hj⟩).x - (pts.get ⟨j, Nat.lt_of_succ_lt hj⟩).x) *
          ((pts.get ⟨j + 1, hj⟩).y - (pts.get ⟨j, Nat.lt_of_succ_lt hj⟩).y)) := by
  intro pts
  induction pts with
  | nil => intro j hj; simp at hj
  | cons p rest ih =>
    intro j hj x hpw h1 h2
    cases rest with
    | nil => simp at hj
    | cons q rest2 =>
      cases j with
      | zero =>
        show findInterp x (p :: q :: rest2) = _
        rw [findInterp]
        rw [if_pos ⟨le_of_lt h1, le_of_lt h2⟩]
        rfl
      | succ j' =>
        show findInterp x (p :: q :: rest2) = _
        rw [findInterp]
        have htail : (q :: rest2).Pairwise (fun a b => a.x < b.x) :=
          (List.pairwise_cons.mp hpw).2
        have hget :
            ((p :: q :: rest2).get ⟨j' + 1, Nat.lt_of_succ_lt hj⟩).x =
              ((q :: rest2).get ⟨j', Nat.lt_of_succ_lt (Nat.lt_of_succ_lt_succ hj)⟩).x := rfl
        have hqx : q.x < x := by
          refine lt_of_le_of_lt ?_ h1
          rw [hget]
          exact pairwise_head_le_get q rest2 htail _
        rw [if_neg (fun hc => absurd hc.2 (not_le.mpr hqx))]
        exact ih j' (Nat.lt_of_succ_lt_succ hj) x htail h1 h2

theorem getTerrainYAtX_of_findInterp (rt : Runtime) (x y : ℚ)
    (h : findInterp x rt.game.terrain = some y) : getTerrainYAtX rt x = y := by
  unfold getTerrainYAtX
  rcases hterr : rt.game.terrain with _ | ⟨p0, _ | ⟨p1, rest⟩⟩
  · rw [hterr] at h
    simp [findInterp] at h
  · rw [hterr] at h
    simp [findInterp] at h
  · rw [hterr] at h
    simp only [h]

/-- C8: for terrain with strictly increasing x-coordinates and a query x
strictly between two consecutive terrain points, the height lookup
returns exactly the linear interpolation of the bracketing points; in
particular, on the terrain (0,100),(100,140),(200,160) the height at
x = 50 is 120 and at x = 150 is 150. -/
theorem terrain_height_interpolates :
    (∀ (rt : Runtime) (j : ℕ) (hj : j + 1 < rt.game.terrain.length) (x : ℚ),
      rt.game.terrain.Pairwise (fun a b => a.x < b.x) →
      (rt.game.terrain.get ⟨j, Nat.lt_of_succ_lt hj⟩).x < x →
      x < (rt.game.terrain.get ⟨j + 1, hj⟩).x →
      getTerrainYAtX rt x =
        (rt.game.terrain.get ⟨j, Nat.lt_of_succ_lt hj⟩).y +
          (x - (rt.game.terrain.get ⟨j, Nat.lt_of_succ_lt hj⟩).x) /
            ((rt.game.terrain.get ⟨j + 1, hj⟩).x -
              (rt.game.terrain.get ⟨j, Nat.lt_of_succ_lt hj⟩).x) *
          ((rt.game.terrain.get ⟨j + 1, hj⟩).y -
            (rt.game.terrain.get ⟨j, Nat.lt_of_succ_lt hj⟩).y)) ∧
    getTerrainYAtX interpRuntime 50 = 120 ∧ getTerrainYAtX interpRuntime 150 = 150 := by
  refine ⟨?_, ?_, ?_⟩
  · intro rt j hj x hpw h1 h2
    exact getTerrainYAtX_of_findInterp rt x _ (findInterp_of_between rt.game.terrain j hj x hpw h1 h2)
  · norm_num [getTerrainYAtX, interpRuntime, interpTerrain, testRuntime, findInterp]
  · norm_num [getTerrainYAtX, interpRuntime, interpTerrain, testRuntime, findInterp]

/-- Witness for C8, applying the general interpolation statement at the
concrete example terrain with j = 1 and x = 150. -/
theorem terrain_height_interpolates_witness :
    interpRuntime.game.terrain.Pairwise (fun a b => a.x < b.x) ∧
    getTerrainYAtX interpRuntime 150 = 150 := by
  have hpw : interpRuntime.game.terrain.Pairwise (fun a b => a.x < b.x) := by
    norm_num [interpRuntime, interpTerrain, testRuntime, List.pairwise_cons]
  have hj : (1 : ℕ) + 1 < interpRuntime.game.terrain.length := by
    norm_num [interpRuntime, interpTerrain, testRuntime]
  have h := terrain_height_interpolates.1 interpRuntime 1 hj 150 hpw
    (by norm_num [interpRuntime, interpTerrain, testRuntime])
    (by norm_num [interpRuntime, interpTerrain, testRuntime])
  refine ⟨hpw, ?_⟩
  rw [h]
  norm_num [interpRuntime, interpTerrain, testRuntime]

/-! ## C1: the landing award formula -/

/-- C1 (refuting the claimed formula): on a concrete safe landing (level
1, zero tracked peak speeds, full fuel, zero angle) the source computes
the bucket-step velocity multiplier 1, stores no fuel multiplier at all,
and awards round(150 * 1) = 150, while the formula claimed by the spec
(continuous clamped multipliers) yields
round(150 * 1.25 * 1.25) = 234 for every value of the irrational safe
speed hypot(MAX_SAFE_VX, MAX_SAFE_VY). The source thus contradicts the
claim (and its own unit tests, which assert the clamped-multiplier
formula and a present fuelMultiplier field). -/
theorem checkLanding_award_contradicts_spec_formula :
    ∃ a,
      (checkLanding oracle0 (testRuntime (padLander 0 0 0 100) 1 3)).game.landingScoreAnimation
          = some a ∧
      a.baseBonus = 150 ∧ a.velocityMultiplier = 1 ∧ a.fuelMultiplier = none ∧
      a.finalAward = 150 ∧
      (∀ safeSpeed : ℚ,
        specFinalAward a.baseBonus (specVelocityMultiplier 0 safeSpeed)
            (specFuelMultiplier 100 100) = 234) ∧
      (150 : ℤ) ≠ 234 := by
  have hterr :
      getTerrainYAtX (testRuntime (padLander 0 0 0 100) 1 3) (padLander 0 0 0 100).x = 120 := by
    norm_num [getTerrainYAtX, testRuntime, flatTerrain, findInterp, padLander]
  have hcontact :
      (decide (getTerrainYAtX (testRuntime (padLander 0 0 0 100) 1 3) (padLander 0 0 0 100).x ≤
          (padLander 0 0 0 100).y + LANDER_SIZE) ||
        footprintIntersectsTerrain oracle0 (testRuntime (padLander 0 0 0 100) 1 3)
          (padLander 0 0 0 100)) = true := by
    rw [hterr]
    norm_num [padLander, LANDER_SIZE]
  have hpad :
      (testRuntime (padLander 0 0 0 100) 1 3).game.landingPads.find?
          (padMatches (padLander 0 0 0 100).x ((padLander 0 0 0 100).y + LANDER_SIZE)) =
        some centralPad := by
    norm_num [testRuntime, List.find?, padMatches, centralPad, padLander, LANDER_SIZE, abs_lt]
  have hsafe : safeLanding (padLander 0 0 0 100) = true := by
    norm_num [safeLanding, padLander, MAX_SAFE_VY, MAX_SAFE_VX, MAX_SAFE_ANGLE]
  have hland := checkLanding_eq_landed oracle0 (testRuntime (padLander 0 0 0 100) 1 3)
    (padLander 0 0 0 100) centralPad rfl hcontact hpad hsafe
  have hanimval :
      landingAwardAnimation (testRuntime (padLander 0 0 0 100) 1 3)
        (padLander 0 0 0 100).angle = animGentle := by
    norm_num [landingAwardAnimation, getTrackedPeakAbsVerticalSpeed, testRuntime, padLander,
      MAX_SAFE_VY, MAX_SAFE_ANGLE, jsRound, animGentle]
  refine ⟨animGentle, ?_, rfl, rfl, rfl, rfl, ?_, by norm_num⟩
  · rw [hland, checkLandingLanded_anim, hanimval]
  · intro safeSpeed
    have h0 : specVelocityMultiplier 0 safeSpeed = 5/4 := by
      unfold specVelocityMultiplier clamp
      rw [zero_div, mul_zero]
      norm_num
    have h1 : specFuelMultiplier 100 100 = 5/4 := by
      unfold specFuelMultiplier clamp
      norm_num
    rw [h0, h1]
    show jsRound ((150 : ℤ) * (5/4) * (5/4) : ℚ) = 234
    unfold jsRound
    norm_num

end MoonLander
